import Mathlib

/-!
# Verification of the Scoped Probabilistic Learning Kernel (IBLM v3/v4)

A shallow embedding of the kernel core of the `kidos` repository
(`IBLM-main`): the scoped-rule data model (`models.py`), the scoped kernel
(`kernel.py`, class `ScopedKernel`), the scoped compiler (`compiler.py`,
class `ScopedCompiler`), the injector (`injector.py`,
`generate_system_prompt`), cold storage (`cold_storage.py`) and the TF-IDF
embedding engine (`embeddings.py`).

Modelling conventions:
* Python floats are modelled as `ℚ`.  All confidence/weight arithmetic in
  the source uses decimal literals and additions/subtractions of them, so
  the rational model agrees with the float semantics on every comparison
  exercised here (no example sits on a float-rounding boundary).
* `datetime` values are modelled as integer ticks (one tick = one hour);
  `timedelta(hours=24)` is `+ 24`, `timedelta.days` is division by `24`.
* Python `dict`s are modelled as association lists in insertion order
  (Python 3.7+ dicts iterate in insertion order); `d[k] = v` replaces in
  place or appends, `del d[k]` removes the key.
* The `EmbeddingEngine` used by the kernel and the compiler is modelled as
  an explicit parameter (`EmbedModel`): a function pair standing for
  `embed` and `cosine_similarity`.  Its float arithmetic (log/sqrt) is
  irrational-valued and none of the kernel/compiler/injector claims depend
  on its numeric behaviour, only on the scores it yields.  The engine
  itself (its TF-IDF path) is modelled separately and faithfully for the
  determinism claim.
* `uuid.uuid4()` fresh-id generation is modelled by a counter threaded
  through the kernel state (`fresh`); ids only need to be fresh.
-/

namespace IBLM

/-- Timestamps: integer ticks, one tick = one hour. -/
abbrev Time := Int

/-- Python `d[k] = v` on an insertion-ordered dict: replace in place if the
key exists, otherwise append. -/
def dictInsert (m : List (String × α)) (k : String) (v : α) : List (String × α) :=
  if m.any (fun p => p.1 == k) then
    m.map (fun p => if p.1 == k then (k, v) else p)
  else
    m ++ [(k, v)]

/-- Python `del d[k]` (total here: a no-op when the key is absent, which
never happens on the states the source reaches). -/
def dictRemove (m : List (String × α)) (k : String) : List (String × α) :=
  m.filter (fun p => !(p.1 == k))

/-- Python `k in d`. -/
def dictHas (m : List (String × α)) (k : String) : Bool :=
  m.any (fun p => p.1 == k)

/-- Python `needle in haystack` on strings (substring containment). -/
def strContains (haystack needle : String) : Bool :=
  let h := haystack.toList
  let n := needle.toList
  (List.range (h.length + 1)).any (fun i => n.isPrefixOf (h.drop i))

/-- The apostrophe character, used in string literals of the source. -/
def apos : String := String.mk [Char.ofNat 39]

/-- Python stable `sorted(xs, key=key, reverse=True)`: descending by key,
ties keep the original order.  `List.insertionSort` with `key b ≤ key a`
is exactly this stable sort. -/
def sortByDesc (key : α → ℚ) (l : List α) : List α :=
  l.insertionSort (fun a b => key b ≤ key a)

/-- Python stable `sorted(xs, key=key)` (ascending). -/
def sortByAsc (key : α → ℚ) (l : List α) : List α :=
  l.insertionSort (fun a b => key a ≤ key b)

/-- ASCII lowercasing of one character.  Python's `str.lower()` restricted
to ASCII, which covers every string this system compares
case-insensitively. -/
def charLower (c : Char) : Char :=
  if 65 ≤ c.toNat && c.toNat ≤ 90 then Char.ofNat (c.toNat + 32) else c

/-- Python `s.lower()` (ASCII).  Defined over the character list so that
it evaluates by kernel reduction (`String.toLower` does not). -/
def strLower (s : String) : String := String.mk (s.toList.map charLower)

/-- Python `s.startswith(pre)`. -/
def strStartsWith (s pre : String) : Bool := pre.toList.isPrefixOf s.toList

/-!  Exact rational arithmetic, written through `mkRat` so that concrete
terms evaluate by kernel reduction (Batteries marks `Rat.add`, `Rat.mul`
and friends `@[irreducible]`, so `0.2 + 0.15` cannot be decided).  The
bridge theorems at the end of the file (`qadd_eq` etc.) prove each wrapper
equal to the corresponding field operation on `ℚ`, so these are ordinary
rational addition, subtraction, multiplication and division. -/

/-- Rational addition via `mkRat`. -/
def qadd (a b : ℚ) : ℚ := mkRat (a.num * b.den + b.num * a.den) (a.den * b.den)

/-- Rational subtraction via `mkRat`. -/
def qsub (a b : ℚ) : ℚ := mkRat (a.num * b.den - b.num * a.den) (a.den * b.den)

/-- Rational multiplication via `mkRat`. -/
def qmul (a b : ℚ) : ℚ := mkRat (a.num * b.num) (a.den * b.den)

/-- Rational division via `mkRat` (0 for a zero divisor, like `ℚ`). -/
def qdiv (a b : ℚ) : ℚ :=
  if 0 ≤ b.num then mkRat (a.num * b.den) (a.den * b.num.natAbs)
  else mkRat (-(a.num * b.den)) (a.den * b.num.natAbs)

-- ======================================================================
-- Enums (models.py)
-- ======================================================================

/-- `models.RuleState` (v4.0, with SHADOW). -/
inductive RuleState where
  | hypothesis | shadow | validating | established | deprecated
deriving DecidableEq, Repr

/-- `RuleState.value` strings used by `to_dict`. -/
def RuleState.value : RuleState → String
  | .hypothesis => "hypothesis"
  | .shadow => "shadow"
  | .validating => "validating"
  | .established => "established"
  | .deprecated => "deprecated"

/-- `RuleState(s)` lookup by value string (raises in Python on an unknown
string; modelled with `Option`). -/
def RuleState.ofValue : String → Option RuleState
  | "hypothesis" => some .hypothesis
  | "shadow" => some .shadow
  | "validating" => some .validating
  | "established" => some .established
  | "deprecated" => some .deprecated
  | _ => none

/-- `models.RelationType`. -/
inductive RelationType where
  | prefers | avoids | requiresRel | expertIn | learning | uses
deriving DecidableEq, Repr

/-- `RelationType.name` strings used by `to_dict`. -/
def RelationType.name : RelationType → String
  | .prefers => "PREFERS"
  | .avoids => "AVOIDS"
  | .requiresRel => "REQUIRES"
  | .expertIn => "EXPERT_IN"
  | .learning => "LEARNING"
  | .uses => "USES"

/-- `RelationType[s]` lookup by name. -/
def RelationType.ofName : String → Option RelationType
  | "PREFERS" => some .prefers
  | "AVOIDS" => some .avoids
  | "REQUIRES" => some .requiresRel
  | "EXPERT_IN" => some .expertIn
  | "LEARNING" => some .learning
  | "USES" => some .uses
  | _ => none

/-- `models.ContextType`. -/
inductive ContextType where
  | language | framework | domain | project | technology | paradigm | environment
deriving DecidableEq, Repr

/-- `ContextType.name`. -/
def ContextType.name : ContextType → String
  | .language => "LANGUAGE"
  | .framework => "FRAMEWORK"
  | .domain => "DOMAIN"
  | .project => "PROJECT"
  | .technology => "TECHNOLOGY"
  | .paradigm => "PARADIGM"
  | .environment => "ENVIRONMENT"

/-- `ContextType[s]` lookup by name. -/
def ContextType.ofName : String → Option ContextType
  | "LANGUAGE" => some .language
  | "FRAMEWORK" => some .framework
  | "DOMAIN" => some .domain
  | "PROJECT" => some .project
  | "TECHNOLOGY" => some .technology
  | "PARADIGM" => some .paradigm
  | "ENVIRONMENT" => some .environment
  | _ => none

/-- `models.HypothesisState`. -/
inductive HypothesisState where
  | pending | validatingH | promoted | rejected | expired
deriving DecidableEq, Repr

/-- `HypothesisState.name`. -/
def HypothesisState.name : HypothesisState → String
  | .pending => "PENDING"
  | .validatingH => "VALIDATING"
  | .promoted => "PROMOTED"
  | .rejected => "REJECTED"
  | .expired => "EXPIRED"

/-- `HypothesisState[s]` lookup by name. -/
def HypothesisState.ofName : String → Option HypothesisState
  | "PENDING" => some .pending
  | "VALIDATING" => some .validatingH
  | "PROMOTED" => some .promoted
  | "REJECTED" => some .rejected
  | "EXPIRED" => some .expired
  | _ => none

/-- `models.SignalType` (the members the scoped pipeline consumes). -/
inductive SignalType where
  | correction | preference | style | entity | expertise | aversion
  | context | personality | goal | workflow
deriving DecidableEq, Repr

-- ======================================================================
-- The embedding engine as an abstract parameter
-- ======================================================================

/-- The `EmbeddingEngine` as seen by the kernel/compiler/injector: `embed`
and the static `cosine_similarity`.  Claims C1-C8 are independent of its
numeric behaviour, so it is passed as a parameter, mirroring
`self.embedding_engine` in the source. -/
structure EmbedModel where
  embed : String → List ℚ
  cosine : List ℚ → List ℚ → ℚ

-- ======================================================================
-- models.ScopedRule
-- ======================================================================

/-- `models.ScopedRule` (dataclass).  Field defaults mirror the dataclass
defaults; `created_at`/`last_activated` default to `datetime.now()` and are
supplied at construction sites. -/
structure ScopedRule where
  rule_id : String
  content : String
  scope_path : List String := []
  target_node : String := "global"
  relation : RelationType := .prefers
  source_node : String := "user"
  confidence : ℚ := mkRat 2 10
  state : RuleState := .hypothesis
  validation_count : Nat := 0
  rejection_count : Nat := 0
  weight : ℚ := mkRat 5 10
  embedding : Option (List ℚ) := none
  source_count : Nat := 1
  created_at : Time := 0
  last_activated : Time := 0
  promoted_from : Option String := none
  metadata : List (String × String) := []
deriving DecidableEq, Repr

/-- `ScopedRule._update_state`: auto-transition `state` from `confidence`
(v4.0 thresholds with SHADOW). -/
def ScopedRule.updateState (r : ScopedRule) : ScopedRule :=
  if r.confidence ≥ mkRat 8 10 then { r with state := .established }
  else if r.confidence ≥ mkRat 6 10 then { r with state := .validating }
  else if r.confidence ≥ mkRat 4 10 then { r with state := .shadow }
  else if r.confidence < mkRat 2 10 then { r with state := .deprecated }
  else { r with state := .hypothesis }

/-- `ScopedRule.validate(boost)`. -/
def ScopedRule.validate (r : ScopedRule) (now : Time) (boost : ℚ) : ScopedRule :=
  ScopedRule.updateState
    { r with validation_count := r.validation_count + 1
             confidence := min 1 (qadd r.confidence boost)
             source_count := r.source_count + 1
             last_activated := now }

/-- `ScopedRule.reject(penalty)`. -/
def ScopedRule.reject (r : ScopedRule) (penalty : ℚ) : ScopedRule :=
  ScopedRule.updateState
    { r with rejection_count := r.rejection_count + 1
             confidence := max 0 (qsub r.confidence penalty) }

/-- `ScopedRule.contradict(penalty=0.15)` (alias for reject). -/
def ScopedRule.contradict (r : ScopedRule) : ScopedRule :=
  r.reject (mkRat 15 100)

/-- `ScopedRule.matches_context`: the rule applies iff its `scope_path` is
an element-wise case-insensitive prefix of the active context (the empty
path always matches). -/
def matchesContextAux : List String → List String → Bool
  | [], _ => true
  | _ :: _, [] => false
  | s :: ss, c :: cs => strLower s == strLower c && matchesContextAux ss cs

/-- `ScopedRule.matches_context(active_context)`. -/
def ScopedRule.matchesContext (r : ScopedRule) (active : List String) : Bool :=
  matchesContextAux r.scope_path active

-- ======================================================================
-- models.Hypothesis
-- ======================================================================

/-- `models.Hypothesis` (dataclass).  The class-level threshold constants
(`VALIDATION_THRESHOLD = 3`, `REJECTION_THRESHOLD = 2`,
`INTERACTION_EXPIRY = 10`) are never overridden per instance anywhere in
the source, so they are modelled as the literal constants below. -/
structure Hypothesis where
  hypothesis_id : String
  proposed_content : String
  proposed_scope_path : List String
  proposed_relation : RelationType
  proposed_target_node : String
  confidence : ℚ := mkRat 1 10
  validations : Nat := 0
  rejections : Nat := 0
  state : HypothesisState := .pending
  created_at : Time := 0
  expires_at : Option Time := none
  validation_interactions : Nat := 0
  source_signal_type : Option String := none
  source_hash : Option String := none
  embedding : Option (List ℚ) := none
  metadata : List (String × String) := []
deriving DecidableEq, Repr

/-- `Hypothesis.validate()`: returns (promoted?, updated hypothesis). -/
def Hypothesis.validate (h : Hypothesis) : Bool × Hypothesis :=
  let h := { h with validations := h.validations + 1
                    confidence := min (mkRat 9 10) (qadd h.confidence (mkRat 2 10))
                    state := .validatingH }
  if h.validations ≥ 3 then (true, { h with state := .promoted })
  else (false, h)

/-- `Hypothesis.reject()`: returns (delete?, updated hypothesis). -/
def Hypothesis.reject (h : Hypothesis) : Bool × Hypothesis :=
  let h := { h with rejections := h.rejections + 1
                    confidence := max 0 (qsub h.confidence (mkRat 3 10)) }
  if h.rejections ≥ 2 then (true, { h with state := .rejected })
  else (false, h)

/-- `Hypothesis.check_expiry()`: returns (expired?, updated hypothesis). -/
def Hypothesis.checkExpiry (now : Time) (h : Hypothesis) : Bool × Hypothesis :=
  let interactionCheck :=
    if h.validation_interactions ≥ 10 then (true, { h with state := .expired })
    else (false, h)
  match h.expires_at with
  | some e => if now > e then (true, { h with state := .expired }) else interactionCheck
  | none => interactionCheck

/-- `Hypothesis.record_interaction()`. -/
def Hypothesis.recordInteraction (h : Hypothesis) : Hypothesis :=
  { h with validation_interactions := h.validation_interactions + 1 }

/-- `Hypothesis.to_scoped_rule()`: convert a promoted hypothesis to a
`ScopedRule`.  The source passes `confidence=0.8` but leaves the
dataclass-default `state=RuleState.HYPOTHESIS` untouched (no
`_update_state` call); `freshId` models the generated `rule_...` uuid and
`now` the `created_at`/`last_activated` defaults. -/
def Hypothesis.toScopedRule (h : Hypothesis) (freshId : String) (now : Time) : ScopedRule :=
  { rule_id := freshId
    source_node := "user"
    target_node := h.proposed_target_node
    relation := h.proposed_relation
    content := h.proposed_content
    weight := mkRat 7 10
    confidence := mkRat 8 10
    scope_path := h.proposed_scope_path
    embedding := h.embedding
    source_count := h.validations
    promoted_from := some h.hypothesis_id
    created_at := now
    last_activated := now }

-- ======================================================================
-- models.ContextNode, UserGoal, UserFact, StyleVector, UserProfile
-- ======================================================================

/-- `models.ContextNode` (dataclass). -/
structure ContextNode where
  node_id : String
  context_type : ContextType
  name : String
  description : String := ""
  parent_id : Option String := none
  children_ids : List String := []
  embedding : Option (List ℚ) := none
  weight : ℚ := mkRat 5 10
  created_at : Time := 0
  last_referenced : Time := 0
  reference_count : Nat := 0
  metadata : List (String × String) := []
deriving DecidableEq, Repr

/-- `models.UserGoal` (dataclass). `priority` and `half_life_days` are
Python ints. -/
structure UserGoal where
  goal_id : String
  content : String
  scope_path : List String := []
  secondary_context : List String := []
  priority : Int := 10
  confidence : ℚ := mkRat 8 10
  expiry : Option Time := none
  created_at : Time := 0
  last_reinforced : Time := 0
  half_life_days : Int := 7
  metadata : List (String × String) := []
deriving DecidableEq, Repr

/-- Python `int(q)` on a nonnegative float: truncation toward zero. -/
def ratTrunc (q : ℚ) : Int := q.num / q.den

/-- `UserGoal.decay_priority()`:
`max(1, int(priority * 0.5 ** (days_since / half_life_days)))`.
`powHalf` is the function `x ↦ 0.5 ** x` (irrational-valued in general, so
passed as a parameter); `days_since = (now - last_reinforced).days` is the
tick difference floor-divided by 24 (one tick = one hour). -/
def UserGoal.decayPriority (powHalf : ℚ → ℚ) (now : Time) (g : UserGoal) : Int :=
  let daysSince : Int := (now - g.last_reinforced).fdiv 24
  max 1 (ratTrunc (qmul (g.priority : ℚ) (powHalf (qdiv (daysSince : ℚ) (g.half_life_days : ℚ)))))

/-- `UserGoal.is_active()`: not expired, and decayed priority at least 1
(the latter always holds because of the `max(1, ...)`). -/
def UserGoal.isActive (powHalf : ℚ → ℚ) (now : Time) (g : UserGoal) : Bool :=
  match g.expiry with
  | some e => if now ≥ e then false else decide (1 ≤ g.decayPriority powHalf now)
  | none => decide (1 ≤ g.decayPriority powHalf now)

/-- `models.UserFact` (dataclass). -/
structure UserFact where
  fact_id : String
  content : String
  scope_path : List String := []
  priority : Int := 5
  confidence : ℚ := mkRat 5 10
  source : String := "observation"
  created_at : Time := 0
  last_validated : Time := 0
  validation_count : Nat := 0
  metadata : List (String × String) := []
deriving DecidableEq, Repr

/-- `models.StyleVector` (dataclass); the per-dimension confidence dict is
an association list. -/
structure StyleVector where
  formality : ℚ := mkRat 5 10
  verbosity : ℚ := mkRat 5 10
  technicality : ℚ := mkRat 5 10
  directness : ℚ := mkRat 5 10
  creativity : ℚ := mkRat 5 10
  pace : ℚ := mkRat 5 10
  learning_rate : ℚ := mkRat 1 10
  confidence : List (String × ℚ) :=
    [("formality", mkRat 1 10), ("verbosity", mkRat 1 10), ("technicality", mkRat 1 10),
     ("directness", mkRat 1 10), ("creativity", mkRat 1 10), ("pace", mkRat 1 10)]
deriving DecidableEq, Repr

/-- `models.UserProfile` (dataclass). -/
structure UserProfile where
  expertise_domains : List String := []
  expertise_levels : List (String × ℚ) := []
  role : Option String := none
  industry : Option String := none
  current_projects : List String := []
  preferred_languages : List String := []
  preferred_tools : List String := []
  avoided_technologies : List String := []
  style_vector : StyleVector := {}
  traits : List (String × ℚ) := []
  active_goals : List String := []
  typical_session_length : ℚ := mkRat 5 10
  question_complexity : ℚ := mkRat 5 10
  iteration_preference : ℚ := mkRat 5 10
  total_interactions : Nat := 0
  profile_confidence : ℚ := 0
  last_updated : Time := 0
deriving DecidableEq, Repr

-- ======================================================================
-- models.Signal, InteractionLog, ProcessedInteractionRegistry
-- ======================================================================

/-- `models.Signal` as consumed by the scoped compiler.  Of the metadata
bag only the `"project"` key is read (`_detect_scope`); it is modelled as
the `project` field. -/
structure Signal where
  signal_type : SignalType
  content : String
  confidence : ℚ
  source_hash : String := ""
  project : Option String := none
deriving DecidableEq, Repr

/-- `models.InteractionLog` (dataclass). -/
structure InteractionLog where
  log_id : String
  user_input : String
  ai_output : String
  timestamp : Time := 0
  signals_extracted : List String := []
  processed : Bool := false
  compilation_target : Option String := none
deriving DecidableEq, Repr

/-- `InteractionLog.content_hash`: the first 16 hex chars of
`sha256(user_input + "|" + ai_output)`.  SHA-256 is modelled by its input
`user_input + "|" + ai_output`: the model is exact up to hash collisions,
and all deduplication semantics below depend only on equality of hashes,
which the pairing preserves. -/
def InteractionLog.contentHash (l : InteractionLog) : String :=
  l.user_input ++ "|" ++ l.ai_output

/-- `models.ProcessedInteractionRegistry`: a bounded set of content
hashes.  Python's `set` is modelled as a duplicate-free list in insertion
order; `set.pop()` (which removes an unspecified element) is modelled as
removing the oldest-inserted element, matching the source comment
"Remove oldest".  The claims below that depend on the eviction are
insensitive to which element is removed (see `C10`). -/
structure ProcessedInteractionRegistry where
  hashes : List String := []
  max_size : Nat := 10000
deriving DecidableEq, Repr

/-- `ProcessedInteractionRegistry.is_processed`. -/
def ProcessedInteractionRegistry.isProcessed
    (r : ProcessedInteractionRegistry) (h : String) : Bool :=
  r.hashes.contains h

/-- `ProcessedInteractionRegistry.register`: evict one element when the
cap is reached, then add. -/
def ProcessedInteractionRegistry.register
    (r : ProcessedInteractionRegistry) (h : String) : ProcessedInteractionRegistry :=
  if r.max_size ≤ r.hashes.length then
    { r with hashes := r.hashes.tail ++ [h] }
  else
    { r with hashes := r.hashes ++ [h] }

-- ======================================================================
-- Cold storage entries (cold_storage.py)
-- ======================================================================

/-- An entry of the cold-storage archive (`cold_storage.ArchiveEntry`).
Each entry carries the archived entity (standing for its `to_dict`
serialisation) and, for hypotheses and rules, the `archive_reason`. -/
inductive ArchiveEntry where
  | interaction (log : InteractionLog)
  | signalEntry (s : Signal)
  | hyp (h : Hypothesis) (reason : String)
  | rule (r : ScopedRule) (reason : String)
deriving DecidableEq, Repr

-- ======================================================================
-- kernel.ScopedKernel: state
-- ======================================================================

/-- The `resource_limits` dict of `ScopedKernel.__init__`. -/
structure ResourceLimits where
  max_rules : Nat := 1000
  max_context_nodes : Nat := 500
  max_hypotheses : Nat := 200
deriving DecidableEq, Repr

/-- The `_metrics` dict of `ScopedKernel.__init__` (fixed keys). -/
structure Metrics where
  scoped_rules_added : Nat := 0
  hypotheses_created : Nat := 0
  hypotheses_promoted : Nat := 0
  hypotheses_rejected : Nat := 0
  context_nodes_created : Nat := 0
deriving DecidableEq, Repr

/-- `kernel.ScopedKernel` state.  `cold_storage` is `some archive` when a
cold-storage path is configured (the archive file contents), else `none`.
The legacy v2 `rules`/`nodes` dicts stay empty in the scoped pipeline and
are omitted.  `fresh` models `uuid` fresh-id generation. -/
structure ScopedKernel where
  context_nodes : List (String × ContextNode) := []
  scoped_rules : List (String × ScopedRule) := []
  hypotheses : List (String × Hypothesis) := []
  goals : List (String × UserGoal) := []
  facts : List (String × UserFact) := []
  profile : UserProfile := {}
  style_vector : StyleVector := {}
  active_project : Option String := none
  cold_storage : Option (List ArchiveEntry) := none
  resource_limits : ResourceLimits := {}
  metrics : Metrics := {}
  interaction_logs : List (String × InteractionLog) := []
  processed_registry : ProcessedInteractionRegistry := {}
  fresh : Nat := 0
deriving DecidableEq, Repr

/-- Append an entry to cold storage if it is configured
(`if self.cold_storage: self.cold_storage.archive_...`). -/
def ScopedKernel.archive (k : ScopedKernel) (e : ArchiveEntry) : ScopedKernel :=
  { k with cold_storage := k.cold_storage.map (fun ar => ar ++ [e]) }

-- ======================================================================
-- kernel.ScopedKernel: scoped-rule management
-- ======================================================================

/-- `ScopedKernel.query_scoped_rules(active_context, query, top_k)`:
filter by `matches_context`, score by `weight * confidence`
(times `1 + cosine(embed(query), embedding)` when a non-empty query and an
embedding are present), sort descending, take `top_k`. -/
def ScopedKernel.queryScopedRules (em : EmbedModel) (k : ScopedKernel)
    (active : List String) (query : Option String) (top_k : Nat) : List ScopedRule :=
  let matchList := (k.scoped_rules.map Prod.snd).filterMap fun rule =>
    if rule.matchesContext active then
      let base := qmul rule.weight rule.confidence
      let score :=
        match query, rule.embedding with
        | some q, some emb =>
            if q.isEmpty then base
            else qmul base (qadd 1 (em.cosine (em.embed q) emb))
        | _, _ => base
      some (score, rule)
    else none
  ((sortByDesc Prod.fst matchList).map Prod.snd).take top_k

/-- One iteration of the deletion loop of `_prune_scoped_rules`: a
candidate rule is archived (reason `"pruned"`, only when cold storage is
configured) and deleted, but only if `rule.weight < mkRat 3 10`. -/
def pruneStep (acc : ScopedKernel) (rule : ScopedRule) : ScopedKernel :=
  if rule.weight < mkRat 3 10 then
    let acc := acc.archive (.rule rule "pruned")
    { acc with scoped_rules := dictRemove acc.scoped_rules rule.rule_id }
  else acc

/-- `ScopedKernel._prune_scoped_rules`: no-op below 10 rules; otherwise
sort ascending by `weight * confidence` and run the deletion loop over the
bottom 10%. -/
def ScopedKernel.pruneScopedRules (k : ScopedKernel) : ScopedKernel :=
  if k.scoped_rules.length < 10 then k
  else
    let sortedRules := sortByAsc (fun r => qmul r.weight r.confidence) (k.scoped_rules.map Prod.snd)
    let toRemove := sortedRules.take (sortedRules.length / 10)
    toRemove.foldl pruneStep k

/-- `ScopedKernel.add_scoped_rule`: prune when the `max_rules` bound is
reached, fill in a missing embedding, insert, bump the metric. -/
def ScopedKernel.addScopedRule (em : EmbedModel) (k : ScopedKernel)
    (rule : ScopedRule) : String × ScopedKernel :=
  let k := if k.resource_limits.max_rules ≤ k.scoped_rules.length
           then k.pruneScopedRules else k
  let rule := match rule.embedding with
    | none => { rule with embedding := some (em.embed rule.content) }
    | some _ => rule
  (rule.rule_id,
   { k with scoped_rules := dictInsert k.scoped_rules rule.rule_id rule
            metrics := { k.metrics with
                          scoped_rules_added := k.metrics.scoped_rules_added + 1 } })

-- ======================================================================
-- kernel.ScopedKernel: goals and facts
-- ======================================================================

/-- The filter stage of `ScopedKernel.get_active_goals` (before sorting):
active goals, restricted — when a non-empty scope is given — to goals
whose `scope_path` is empty or shares an element with the scope
(case-insensitively).  A `none`/empty scope (falsy in Python) disables the
scope filter. -/
def ScopedKernel.activeGoalsUnsorted (powHalf : ℚ → ℚ) (now : Time)
    (k : ScopedKernel) (scope_path : Option (List String)) : List UserGoal :=
  let goals := (k.goals.map Prod.snd).filter (fun g => g.isActive powHalf now)
  match scope_path with
  | none => goals
  | some sp =>
      if sp.isEmpty then goals
      else goals.filter fun g =>
        g.scope_path.isEmpty ||
        g.scope_path.any (fun s => (sp.map strLower).contains (strLower s))

/-- `ScopedKernel.get_active_goals`: the filtered goals sorted descending
by the raw stored `priority`. -/
def ScopedKernel.getActiveGoals (powHalf : ℚ → ℚ) (now : Time)
    (k : ScopedKernel) (scope_path : Option (List String)) : List UserGoal :=
  (k.activeGoalsUnsorted powHalf now scope_path).insertionSort
    (fun a b => b.priority ≤ a.priority)

/-- `ScopedKernel.get_facts_not_conflicting`: facts whose lowercased
content is not among the active goals' lowercased contents, sorted by
confidence descending. -/
def ScopedKernel.getFactsNotConflicting (powHalf : ℚ → ℚ) (now : Time)
    (k : ScopedKernel) (scope_path : Option (List String)) : List UserFact :=
  let activeGoals := k.getActiveGoals powHalf now scope_path
  let goalContents := activeGoals.map (fun g => strLower g.content)
  let validFacts := (k.facts.map Prod.snd).filter
    (fun f => !(goalContents.contains (strLower f.content)))
  sortByDesc (fun f => f.confidence) validFacts

-- ======================================================================
-- kernel.ScopedKernel: interaction logging and garbage collection
-- ======================================================================

/-- `ScopedKernel.log_interaction(user_input, ai_output)`: build the log,
reject a duplicate hash (return `None`), otherwise store the log and
register the hash in the processed registry immediately.  The random
`uuid4` log id is modelled by a fresh string derived from the counter
(distinct counters give distinct ids). -/
def ScopedKernel.logInteraction (k : ScopedKernel) (user_input ai_output : String) :
    Option String × ScopedKernel :=
  let log : InteractionLog :=
    { log_id := String.mk (List.replicate k.fresh 'x')
      user_input := user_input, ai_output := ai_output }
  if k.processed_registry.isProcessed log.contentHash then (none, k)
  else
    (some log.log_id,
     { k with interaction_logs := dictInsert k.interaction_logs log.log_id log
              processed_registry := k.processed_registry.register log.contentHash
              fresh := k.fresh + 1 })

/-- `ScopedKernel.garbage_collect`: archive the processed logs (when cold
storage is configured) and delete them from RAM.  The registry is not
touched. -/
def ScopedKernel.garbageCollect (k : ScopedKernel) : ScopedKernel :=
  let processedLogs := (k.interaction_logs.map Prod.snd).filter (fun l => l.processed)
  let k :=
    if processedLogs.isEmpty then k
    else { k with cold_storage :=
            k.cold_storage.map (fun ar => ar ++ processedLogs.map ArchiveEntry.interaction) }
  { k with interaction_logs :=
      processedLogs.foldl (fun m l => dictRemove m l.log_id) k.interaction_logs }

-- ======================================================================
-- compiler.ScopedCompiler
-- ======================================================================

/-- `compiler.ScopedEvolutionReport` (dataclass, all counters default 0). -/
structure ScopedEvolutionReport where
  hypotheses_created : Nat := 0
  hypotheses_validated : Nat := 0
  hypotheses_rejected : Nat := 0
  hypotheses_expired : Nat := 0
  rules_promoted : Nat := 0
  rules_updated : Nat := 0
  rules_contradicted : Nat := 0
  context_nodes_created : Nat := 0
  context_nodes_updated : Nat := 0
  signals_processed : Nat := 0
  interactions_archived : Nat := 0
deriving DecidableEq, Repr

/-- `ScopedCompiler.LANGUAGE_KEYWORDS` in source (insertion) order. -/
def LANGUAGE_KEYWORDS : List (String × String) :=
  [("python", "Python"), ("javascript", "JavaScript"), ("typescript", "TypeScript"),
   ("java", "Java"), ("rust", "Rust"), ("go", "Go"), ("golang", "Go"),
   ("ruby", "Ruby"), ("php", "PHP"), ("swift", "Swift"), ("kotlin", "Kotlin"),
   ("c++", "C++"), ("cpp", "C++"), ("c#", "C#"), ("csharp", "C#")]

/-- `ScopedCompiler.FRAMEWORK_KEYWORDS` in source order. -/
def FRAMEWORK_KEYWORDS : List (String × String) :=
  [("fastapi", "FastAPI"), ("django", "Django"), ("flask", "Flask"),
   ("react", "React"), ("vue", "Vue"), ("angular", "Angular"),
   ("express", "Express"), ("nextjs", "Next.js"), ("next.js", "Next.js"),
   ("spring", "Spring"), ("rails", "Rails")]

/-- `ScopedCompiler.DOMAIN_KEYWORDS` in source order. -/
def DOMAIN_KEYWORDS : List (String × String) :=
  [("backend", "Backend"), ("frontend", "Frontend"), ("fullstack", "Fullstack"),
   ("api", "API"), ("database", "Database"), ("ml", "Machine Learning"),
   ("devops", "DevOps"), ("mobile", "Mobile"), ("web", "Web")]

/-- `ScopedCompiler._detect_scope(signal)`: first language, framework and
domain keyword occurring in the lowercased content each extend the scope
path; the project metadata is appended last; with no match the scope is
`["Global"]` with target node `"global"`. -/
def detectScope (signal : Signal) : List String × String :=
  let content := strLower signal.content
  let pick :=
    match LANGUAGE_KEYWORDS.find? (fun p => strContains content p.1) with
    | some p => (([p.2] : List String), (some ("lang_" ++ strLower p.2) : Option String))
    | none => ([], none)
  let pick :=
    match FRAMEWORK_KEYWORDS.find? (fun p => strContains content p.1) with
    | some p => (pick.1 ++ [p.2], some ("fw_" ++ ((strLower p.2).replace "." "")))
    | none => pick
  let pick :=
    match DOMAIN_KEYWORDS.find? (fun p => strContains content p.1) with
    | some p => (pick.1 ++ [p.2],
                 if pick.2.isNone then some ("domain_" ++ strLower p.2) else pick.2)
    | none => pick
  let pick :=
    match signal.project with
    | some proj => (pick.1 ++ [proj], some ("project_" ++ ((strLower proj).replace " " "_")))
    | none => pick
  match pick.2 with
  | none => (["Global"], "global")
  | some t => (pick.1, t)

/-- `ScopedCompiler._create_context_node`. -/
def createContextNode (em : EmbedModel) (now : Time) (k : ScopedKernel)
    (node_id : String) (scope_path : List String) : ScopedKernel :=
  let lastName := scope_path.getLast?.getD node_id
  let pick :=
    if strStartsWith node_id "lang_" then (ContextType.language, lastName)
    else if strStartsWith node_id "fw_" then (ContextType.framework, lastName)
    else if strStartsWith node_id "domain_" then (ContextType.domain, lastName)
    else if strStartsWith node_id "project_" then (ContextType.project, lastName)
    else (ContextType.technology, node_id)
  let node : ContextNode :=
    { node_id := node_id
      context_type := pick.1
      name := pick.2
      description := "Context: " ++ String.intercalate " > " scope_path
      embedding := some (em.embed pick.2)
      created_at := now
      last_referenced := now }
  { k with context_nodes := dictInsert k.context_nodes node_id node }

/-- `ScopedCompiler._semantic_similarity`. -/
def semanticSimilarity (em : EmbedModel) (t1 t2 : String) : ℚ :=
  em.cosine (em.embed t1) (em.embed t2)

/-- `ScopedCompiler._find_matching_hypotheses`: pending/validating
hypotheses whose embedding has cosine above 0.6 with the signal. -/
def findMatchingHypotheses (em : EmbedModel) (k : ScopedKernel) (signal : Signal) :
    List Hypothesis :=
  let semb := em.embed signal.content
  (k.hypotheses.map Prod.snd).filter fun h =>
    (h.state == .pending || h.state == .validatingH) &&
    (match h.embedding with
     | some e => decide (mkRat 6 10 < em.cosine semb e)
     | none => false)

/-- `ScopedCompiler._signal_validates_hypothesis`. -/
def signalValidatesHypothesis (em : EmbedModel) (signal : Signal) (h : Hypothesis) : Bool :=
  if signal.signal_type == .preference || signal.signal_type == .workflow then
    decide (mkRat 7 10 < semanticSimilarity em signal.content h.proposed_content)
  else false

/-- The negation words of `_signal_contradicts_hypothesis`. -/
def NEGATIONS : List String :=
  ["don" ++ apos ++ "t", "not", "never", "stop", "instead"]

/-- `ScopedCompiler._signal_contradicts_hypothesis`. -/
def signalContradictsHypothesis (em : EmbedModel) (signal : Signal) (h : Hypothesis) : Bool :=
  if signal.signal_type == .correction then
    decide (mkRat 5 10 < semanticSimilarity em signal.content h.proposed_content) &&
    NEGATIONS.any (fun neg => strContains (strLower signal.content) neg)
  else false

/-- `ScopedCompiler._archive_and_delete_hypothesis`. -/
def archiveAndDeleteHypothesis (k : ScopedKernel) (h : Hypothesis) (reason : String) :
    ScopedKernel :=
  let k := k.archive (.hyp h reason)
  { k with hypotheses := dictRemove k.hypotheses h.hypothesis_id }

/-- `ScopedCompiler._promote_hypothesis`: convert to a rule (fresh
`rule_...` id), overwrite its embedding with the embedded content, store
it, archive the hypothesis with reason `"promoted"`. -/
def promoteHypothesis (em : EmbedModel) (now : Time) (k : ScopedKernel)
    (h : Hypothesis) : ScopedKernel :=
  let rule := h.toScopedRule ("rule_" ++ toString k.fresh) now
  let rule := { rule with embedding := some (em.embed rule.content) }
  let k := { k with scoped_rules := dictInsert k.scoped_rules rule.rule_id rule
                    fresh := k.fresh + 1 }
  archiveAndDeleteHypothesis k h "promoted"

/-- `ScopedCompiler._contradict_scoped_rules`: apply `contradict()` to
every rule matching the scope with cosine above 0.6; returns the updated
kernel and the number of contradicted rules. -/
def contradictScopedRules (em : EmbedModel) (k : ScopedKernel) (signal : Signal)
    (scope_path : List String) : ScopedKernel × Nat :=
  let semb := em.embed signal.content
  let hit : ScopedRule → Bool := fun r =>
    r.matchesContext scope_path &&
    (match r.embedding with
     | some e => decide (mkRat 6 10 < em.cosine semb e)
     | none => false)
  ({ k with scoped_rules :=
      k.scoped_rules.map (fun p => if hit p.2 then (p.1, p.2.contradict) else p) },
   ((k.scoped_rules.map Prod.snd).filter hit).length)

/-- `ScopedCompiler._relation_map.get(signal_type, default)`. -/
def relationMapGet (dflt : RelationType) : SignalType → RelationType
  | .preference => .prefers
  | .aversion => .avoids
  | .expertise => .expertIn
  | .correction => .prefers
  | .workflow => .uses
  | _ => dflt

/-- `SignalType.name` (stored in `source_signal_type`). -/
def SignalType.name : SignalType → String
  | .correction => "CORRECTION"
  | .preference => "PREFERENCE"
  | .style => "STYLE"
  | .entity => "ENTITY"
  | .expertise => "EXPERTISE"
  | .aversion => "AVERSION"
  | .context => "CONTEXT"
  | .personality => "PERSONALITY"
  | .goal => "GOAL"
  | .workflow => "WORKFLOW"

/-- `ScopedCompiler._create_hypothesis`: `None` for signals below
confidence 0.3, otherwise a fresh hypothesis with confidence 0.1, expiry
24 hours from now and zero validation interactions. -/
def createHypothesis (em : EmbedModel) (now : Time) (signal : Signal)
    (scope_path : List String) (target_node_id : String) (freshId : String) :
    Option Hypothesis :=
  if signal.confidence < mkRat 3 10 then none
  else
    some { hypothesis_id := freshId
           proposed_content := signal.content
           proposed_scope_path := scope_path
           proposed_relation := relationMapGet .uses signal.signal_type
           proposed_target_node := target_node_id
           confidence := mkRat 1 10
           source_signal_type := some signal.signal_type.name
           source_hash := some signal.source_hash
           created_at := now
           expires_at := some (now + 24)
           embedding := some (em.embed signal.content) }

/-- The body of the `for hypothesis in matching_hypotheses` loop of
`evolve_scoped` (validation / contradiction of one matching hypothesis). -/
def processMatchingHypothesis (em : EmbedModel) (now : Time) (signal : Signal)
    (acc : ScopedKernel × ScopedEvolutionReport) (h : Hypothesis) :
    ScopedKernel × ScopedEvolutionReport :=
  if signalValidatesHypothesis em signal h then
    if (h.validate).1 then
      (promoteHypothesis em now acc.1 (h.validate).2,
       { acc.2 with rules_promoted := acc.2.rules_promoted + 1 })
    else
      ({ acc.1 with hypotheses :=
           dictInsert acc.1.hypotheses (h.validate).2.hypothesis_id (h.validate).2 },
       { acc.2 with hypotheses_validated := acc.2.hypotheses_validated + 1 })
  else if signalContradictsHypothesis em signal h then
    if (h.reject).1 then
      (archiveAndDeleteHypothesis acc.1 (h.reject).2 "rejected",
       { acc.2 with hypotheses_rejected := acc.2.hypotheses_rejected + 1 })
    else
      ({ acc.1 with hypotheses :=
           dictInsert acc.1.hypotheses (h.reject).2.hypothesis_id (h.reject).2 }, acc.2)
  else acc

/-- Step 1 of the per-signal body of `evolve_scoped`: make sure the
detected scope's context node exists. -/
def stepContextNode (em : EmbedModel) (now : Time) (signal : Signal)
    (acc : ScopedKernel × ScopedEvolutionReport) :
    ScopedKernel × ScopedEvolutionReport :=
  let det := detectScope signal
  if !(dictHas acc.1.context_nodes det.2) then
    (createContextNode em now acc.1 det.2 det.1,
     { acc.2 with context_nodes_created := acc.2.context_nodes_created + 1 })
  else acc

/-- Step 2: validate/contradict every matching hypothesis. -/
def stepHypotheses (em : EmbedModel) (now : Time) (signal : Signal)
    (acc : ScopedKernel × ScopedEvolutionReport) :
    ScopedKernel × ScopedEvolutionReport :=
  (findMatchingHypotheses em acc.1 signal).foldl
    (processMatchingHypothesis em now signal) acc

/-- Step 3: a CORRECTION signal contradicts the scoped rules of its
scope. -/
def stepCorrection (em : EmbedModel) (signal : Signal)
    (acc : ScopedKernel × ScopedEvolutionReport) :
    ScopedKernel × ScopedEvolutionReport :=
  if signal.signal_type == .correction then
    let c := contradictScopedRules em acc.1 signal (detectScope signal).1
    (c.1, { acc.2 with rules_contradicted := acc.2.rules_contradicted + c.2 })
  else acc

/-- Step 4: create a new hypothesis from the signal (unconditionally of
what step 2 did, as in the source). -/
def stepCreate (em : EmbedModel) (now : Time) (signal : Signal)
    (acc : ScopedKernel × ScopedEvolutionReport) :
    ScopedKernel × ScopedEvolutionReport :=
  match createHypothesis em now signal (detectScope signal).1 (detectScope signal).2
        ("hyp_" ++ toString acc.1.fresh) with
  | some h =>
      ({ acc.1 with hypotheses := dictInsert acc.1.hypotheses h.hypothesis_id h
                    fresh := acc.1.fresh + 1 },
       { acc.2 with hypotheses_created := acc.2.hypotheses_created + 1 })
  | none => acc

/-- The per-signal body of `evolve_scoped` (steps 1-4 for one signal). -/
def processSignalStep (em : EmbedModel) (now : Time)
    (acc : ScopedKernel × ScopedEvolutionReport) (signal : Signal) :
    ScopedKernel × ScopedEvolutionReport :=
  stepCreate em now signal
    (stepCorrection em signal
      (stepHypotheses em now signal
        (stepContextNode em now signal acc)))

/-- `ScopedCompiler._check_expired_hypotheses`: first pass runs
`check_expiry` (which sets the EXPIRED state) on every hypothesis and
collects the expired ids, second pass archives (reason `"expired"`) and
deletes them. -/
def checkExpiredHypotheses (now : Time) (k : ScopedKernel) : ScopedKernel × Nat :=
  let checked := k.hypotheses.map (fun p => (p.1, p.2.checkExpiry now))
  let k := { k with hypotheses := checked.map (fun p => (p.1, p.2.2)) }
  let expiredIds := (checked.filter (fun p => p.2.1)).map Prod.fst
  expiredIds.foldl
    (fun (acc : ScopedKernel × Nat) hid =>
      match acc.1.hypotheses.lookup hid with
      | some h => (archiveAndDeleteHypothesis acc.1 h "expired", acc.2 + 1)
      | none => acc)
    (k, 0)

/-- Step 6 of `evolve_scoped`: `record_interaction` on every hypothesis. -/
def recordInteractions (k : ScopedKernel) : ScopedKernel :=
  { k with hypotheses := k.hypotheses.map (fun p => (p.1, p.2.recordInteraction)) }

/-- `ScopedCompiler.evolve_scoped(signals)`: empty input returns the empty
report untouched; otherwise process every signal, then expire hypotheses,
then record the interaction on all remaining hypotheses. -/
def evolveScoped (em : EmbedModel) (now : Time) (k : ScopedKernel)
    (signals : List Signal) : ScopedKernel × ScopedEvolutionReport :=
  if signals.isEmpty then (k, {})
  else
    let start : ScopedEvolutionReport := { signals_processed := signals.length }
    let run := signals.foldl (processSignalStep em now) (k, start)
    let expire := checkExpiredHypotheses now run.1
    (recordInteractions expire.1, { run.2 with hypotheses_expired := expire.2 })

/-- `ScopedCompiler.force_scoped_rule`: force-add a rule with confidence
0.9, skipping the hypothesis pipeline.  As in the source, the dataclass
default `state=HYPOTHESIS` is left untouched. -/
def forceScopedRule (em : EmbedModel) (now : Time) (k : ScopedKernel)
    (content : String) (scope_path : List String) (target_node_id : String)
    (relation : Option RelationType) (weight : ℚ) : String × ScopedKernel :=
  let rule : ScopedRule :=
    { rule_id := "rule_" ++ toString k.fresh
      source_node := "user"
      target_node := target_node_id
      relation := relation.getD .prefers
      content := content
      weight := weight
      confidence := mkRat 9 10
      scope_path := scope_path
      embedding := some (em.embed content)
      source_count := 1
      created_at := now
      last_activated := now }
  (rule.rule_id,
   { k with scoped_rules := dictInsert k.scoped_rules rule.rule_id rule
            fresh := k.fresh + 1 })

-- ======================================================================
-- injector.generate_system_prompt
-- ======================================================================

/-- The scope `generate_system_prompt` detects for a query (a synthetic
signal with the query as content and empty metadata). -/
def detectedScope (user_query : String) : List String :=
  (detectScope { signal_type := .context, content := user_query, confidence := 0 }).1

/-- The ESTABLISHED rules collected by `generate_system_prompt` for a
scope, sorted descending by `confidence * weight`. -/
def establishedRulesFor (k : ScopedKernel) (scope_path : List String) : List ScopedRule :=
  sortByDesc (fun r => qmul r.confidence r.weight)
    ((k.scoped_rules.map Prod.snd).filter fun r =>
      r.state == .established && (r.scope_path.isEmpty || r.matchesContext scope_path))

/-- The rules `generate_system_prompt` actually injects for a query: the
top five collected ESTABLISHED rules. -/
def injectedEstablishedRules (k : ScopedKernel) (user_query : String) : List ScopedRule :=
  (establishedRulesFor k (detectedScope user_query)).take 5

/-- `"Global"` for an empty path, else `" > ".join(path)`. -/
def scopeLabel (sp : List String) : String :=
  if sp.isEmpty then "Global" else String.intercalate " > " sp

/-- One goal line of the CORE DIRECTIVES section.  The source renders the
raw stored `goal.priority`. -/
def renderGoalLine (g : UserGoal) : String :=
  "- [" ++ scopeLabel g.scope_path ++ "] " ++ g.content ++
    " (Priority: " ++ toString g.priority ++ ")"

/-- One fact line of the PREFERENCES section. -/
def renderFactLine (f : UserFact) : String :=
  "- [" ++ scopeLabel f.scope_path ++ "] " ++ f.content

/-- One rule line of the VERIFIED BEHAVIORS section. -/
def renderRuleLine (r : ScopedRule) : String :=
  "- [" ++ scopeLabel r.scope_path ++ "] " ++ r.content

/-- The goal lines `generate_system_prompt` emits for a detected scope:
top five active goals (which `get_active_goals` sorts by raw `priority`
descending), rendered with the raw stored priority. -/
def goalLines (powHalf : ℚ → ℚ) (now : Time) (k : ScopedKernel)
    (scope_path : List String) : List String :=
  ((k.getActiveGoals powHalf now (some scope_path)).take 5).map renderGoalLine

/-- `injector.generate_system_prompt(kernel, user_query)`. -/
def generateSystemPrompt (powHalf : ℚ → ℚ) (now : Time) (k : ScopedKernel)
    (user_query : String) : String :=
  let sp := detectedScope user_query
  let estab := establishedRulesFor k sp
  let goals := k.getActiveGoals powHalf now (some sp)
  let facts := k.getFactsNotConflicting powHalf now (some sp)
  let lines := ["# MISSION BRIEFING", "You are the user" ++ apos ++ "s Semantic Twin.", ""]
  let lines :=
    if goals.isEmpty then lines
    else lines ++ ["## CORE DIRECTIVES (Laws - MUST FOLLOW)"] ++
      goalLines powHalf now k sp ++ [""]
  let lines :=
    if facts.isEmpty then lines
    else lines ++ ["## PREFERENCES (Follow unless conflicts with Laws)"] ++
      (facts.take 5).map renderFactLine ++ [""]
  let lines :=
    if estab.isEmpty then lines
    else lines ++ ["## VERIFIED BEHAVIORS"] ++
      (injectedEstablishedRules k user_query).map renderRuleLine
  String.intercalate "\n" lines

-- ======================================================================
-- cold_storage.ColdStorage.recompile_brain
-- ======================================================================

/-- `cold_storage.RecompileReport` (the fields the claims concern;
`duration_seconds` is wall-clock time and is omitted). -/
structure RecompileReport where
  entries_processed : Nat := 0
  interactions_replayed : Nat := 0
  signals_extracted : Nat := 0
  hypotheses_created : Nat := 0
  rules_promoted : Nat := 0
  context_nodes_created : Nat := 0
  errors : List String := []
deriving DecidableEq, Repr

/-- The per-entry error message recorded by `recompile_brain`: the source
runs `evolution.get("hypotheses_created", 0)` on the
`ScopedEvolutionReport` returned by `evolve_scoped`, but that report is a
dataclass with no `get` method, so every entry raises `AttributeError`,
which the per-entry `except` turns into an `"Entry error: ..."` string. -/
def entryAttributeError : String :=
  "Entry error: " ++ apos ++ "ScopedEvolutionReport" ++ apos ++
    " object has no attribute " ++ apos ++ "get" ++ apos

/-- `ColdStorage.recompile_brain(kernel)` given the archive contents.
`observe` stands for `InteractionObserver().observe(...).signals` (the
Observer is outside the scoped-kernel core and is passed as a parameter).
For every interaction entry: count it, replay it through the observer,
evolve the kernel with the extracted signals — and then hit the
`AttributeError` described at `entryAttributeError`, so the three
evolution counters are never accumulated and an error is recorded
instead.  Non-interaction entries are filtered out by
`read_entries(entry_types=["interaction"])`. -/
def ColdStorage.recompileBrain (em : EmbedModel)
    (observe : String → String → List Signal) (now : Time)
    (k : ScopedKernel) (archive : List ArchiveEntry) :
    ScopedKernel × RecompileReport :=
  archive.foldl
    (fun (acc : ScopedKernel × RecompileReport) entry =>
      match entry with
      | .interaction log =>
          let rep := { acc.2 with entries_processed := acc.2.entries_processed + 1 }
          let signals := observe log.user_input log.ai_output
          let rep := { rep with
                        interactions_replayed := rep.interactions_replayed + 1
                        signals_extracted := rep.signals_extracted + signals.length }
          let run := evolveScoped em now acc.1 signals
          (run.1, { rep with errors := rep.errors ++ [entryAttributeError] })
      | _ => acc)
    (k, {})

/-- `ScopedKernel.recompile_brain`: with no cold storage configured the
source returns an error dict (modelled as `none`); otherwise clear the
rules, hypotheses and context nodes and replay the archive. -/
def ScopedKernel.recompileBrain (em : EmbedModel)
    (observe : String → String → List Signal) (now : Time)
    (k : ScopedKernel) : ScopedKernel × Option RecompileReport :=
  match k.cold_storage with
  | none => (k, none)
  | some archive =>
      let k := { k with scoped_rules := [], hypotheses := [], context_nodes := [] }
      let run := ColdStorage.recompileBrain em observe now k archive
      (run.1, some run.2)

-- ======================================================================
-- kernel.ScopedKernel.export / load
-- ======================================================================

/-- `ScopedRule.to_dict()` output: the same information with enums
rendered as their name/value strings. -/
structure ScopedRuleDict where
  rule_id : String
  content : String
  scope_path : List String
  target_node : String
  relation : String
  source_node : String
  confidence : ℚ
  state : String
  validation_count : Nat
  rejection_count : Nat
  weight : ℚ
  embedding : Option (List ℚ)
  source_count : Nat
  created_at : Time
  last_activated : Time
  promoted_from : Option String
  metadata : List (String × String)
deriving DecidableEq, Repr

/-- `ScopedRule.to_dict`. -/
def ScopedRule.toDict (r : ScopedRule) : ScopedRuleDict :=
  { rule_id := r.rule_id, content := r.content, scope_path := r.scope_path
    target_node := r.target_node, relation := r.relation.name
    source_node := r.source_node, confidence := r.confidence
    state := r.state.value, validation_count := r.validation_count
    rejection_count := r.rejection_count, weight := r.weight
    embedding := r.embedding, source_count := r.source_count
    created_at := r.created_at, last_activated := r.last_activated
    promoted_from := r.promoted_from, metadata := r.metadata }

/-- `ScopedRule.from_dict` (fails on unknown relation/state strings, where
Python raises). -/
def ScopedRuleDict.toRule (d : ScopedRuleDict) : Option ScopedRule :=
  match RelationType.ofName d.relation, RuleState.ofValue d.state with
  | some rel, some st =>
      some { rule_id := d.rule_id, content := d.content, scope_path := d.scope_path
             target_node := d.target_node, relation := rel
             source_node := d.source_node, confidence := d.confidence
             state := st, validation_count := d.validation_count
             rejection_count := d.rejection_count, weight := d.weight
             embedding := d.embedding, source_count := d.source_count
             created_at := d.created_at, last_activated := d.last_activated
             promoted_from := d.promoted_from, metadata := d.metadata }
  | _, _ => none

/-- `ContextNode.to_dict()` output. -/
structure ContextNodeDict where
  node_id : String
  context_type : String
  name : String
  description : String
  parent_id : Option String
  children_ids : List String
  embedding : Option (List ℚ)
  weight : ℚ
  created_at : Time
  last_referenced : Time
  reference_count : Nat
  metadata : List (String × String)
deriving DecidableEq, Repr

/-- `ContextNode.to_dict`. -/
def ContextNode.toDict (n : ContextNode) : ContextNodeDict :=
  { node_id := n.node_id, context_type := n.context_type.name, name := n.name
    description := n.description, parent_id := n.parent_id
    children_ids := n.children_ids, embedding := n.embedding, weight := n.weight
    created_at := n.created_at, last_referenced := n.last_referenced
    reference_count := n.reference_count, metadata := n.metadata }

/-- `ContextNode.from_dict`. -/
def ContextNodeDict.toNode (d : ContextNodeDict) : Option ContextNode :=
  match ContextType.ofName d.context_type with
  | some ct =>
      some { node_id := d.node_id, context_type := ct, name := d.name
             description := d.description, parent_id := d.parent_id
             children_ids := d.children_ids, embedding := d.embedding
             weight := d.weight, created_at := d.created_at
             last_referenced := d.last_referenced
             reference_count := d.reference_count, metadata := d.metadata }
  | none => none

/-- `Hypothesis.to_dict()` output. -/
structure HypothesisDict where
  hypothesis_id : String
  proposed_content : String
  proposed_scope_path : List String
  proposed_relation : String
  proposed_target_node : String
  confidence : ℚ
  validations : Nat
  rejections : Nat
  state : String
  created_at : Time
  expires_at : Option Time
  validation_interactions : Nat
  source_signal_type : Option String
  source_hash : Option String
  embedding : Option (List ℚ)
  metadata : List (String × String)
deriving DecidableEq, Repr

/-- `Hypothesis.to_dict`. -/
def Hypothesis.toDict (h : Hypothesis) : HypothesisDict :=
  { hypothesis_id := h.hypothesis_id, proposed_content := h.proposed_content
    proposed_scope_path := h.proposed_scope_path
    proposed_relation := h.proposed_relation.name
    proposed_target_node := h.proposed_target_node, confidence := h.confidence
    validations := h.validations, rejections := h.rejections
    state := h.state.name, created_at := h.created_at
    expires_at := h.expires_at
    validation_interactions := h.validation_interactions
    source_signal_type := h.source_signal_type, source_hash := h.source_hash
    embedding := h.embedding, metadata := h.metadata }

/-- `Hypothesis.from_dict`. -/
def HypothesisDict.toHypothesis (d : HypothesisDict) : Option Hypothesis :=
  match RelationType.ofName d.proposed_relation, HypothesisState.ofName d.state with
  | some rel, some st =>
      some { hypothesis_id := d.hypothesis_id
             proposed_content := d.proposed_content
             proposed_scope_path := d.proposed_scope_path
             proposed_relation := rel
             proposed_target_node := d.proposed_target_node
             confidence := d.confidence, validations := d.validations
             rejections := d.rejections, state := st
             created_at := d.created_at, expires_at := d.expires_at
             validation_interactions := d.validation_interactions
             source_signal_type := d.source_signal_type
             source_hash := d.source_hash, embedding := d.embedding
             metadata := d.metadata }
  | _, _ => none

/-- The payload produced by `ScopedKernel.export()`.  Its top-level keys
are exactly `version`, `metadata`, `context_nodes`, `scoped_rules`,
`hypotheses`, `profile`, `style_vector`, `active_project` and `metrics`:
the kernel's goals and facts are NOT exported.  (`metadata`, two
timestamps ignored by `load`, is omitted here.  `UserProfile.to_dict` /
`StyleVector.to_dict` and their `from_dict`s are key-for-key inverse
field maps with no enum strings, so the profile and style vector are
carried in entity form.) -/
structure ExportPayload where
  version : String
  context_nodes : List (String × ContextNodeDict)
  scoped_rules : List (String × ScopedRuleDict)
  hypotheses : List (String × HypothesisDict)
  profile : UserProfile
  style_vector : StyleVector
  active_project : Option String
  metrics : Metrics
deriving Repr

/-- `ScopedKernel.export()`. -/
def ScopedKernel.export (k : ScopedKernel) : ExportPayload :=
  { version := "3.0.0"
    context_nodes := k.context_nodes.map (fun p => (p.1, p.2.toDict))
    scoped_rules := k.scoped_rules.map (fun p => (p.1, p.2.toDict))
    hypotheses := k.hypotheses.map (fun p => (p.1, p.2.toDict))
    profile := k.profile
    style_vector := k.style_vector
    active_project := k.active_project
    metrics := k.metrics }

/-- Parse each entry of a serialized id→dict map (Python raises on the
first malformed entry; modelled as `none`). -/
def parseEntries (g : β → Option α) : List (String × β) → Option (List (String × α))
  | [] => some []
  | p :: rest =>
      match g p.2, parseEntries g rest with
      | some v, some r => some ((p.1, v) :: r)
      | _, _ => none

/-- `ScopedKernel.load(data)`: build a fresh kernel and fill in the
context nodes, scoped rules, hypotheses, profile, style vector, active
project and metrics from the payload.  A fresh kernel's metrics are all
zero and `data["metrics"]` carries every metrics key, so the
`_metrics.update(...)` is a full replacement.  Nothing reads goals or
facts. -/
def ScopedKernel.load (p : ExportPayload) : Option ScopedKernel :=
  match parseEntries ContextNodeDict.toNode p.context_nodes,
        parseEntries ScopedRuleDict.toRule p.scoped_rules,
        parseEntries HypothesisDict.toHypothesis p.hypotheses with
  | some nodes, some rules, some hyps =>
      some { context_nodes := nodes
             scoped_rules := rules
             hypotheses := hyps
             profile := p.profile
             style_vector := p.style_vector
             active_project := p.active_project
             metrics := p.metrics }
  | _, _, _ => none

-- ======================================================================
-- Reachability of ScopedKernel states (for the log/registry invariant)
-- ======================================================================

/-- Reachable kernel states, restricted to the operations that read or
write the in-memory interaction-log map or the processed registry:
`ScopedKernel.__init__` (also the result of `load`, which builds a fresh
kernel with empty logs and registry), `log_interaction` and
`garbage_collect`.  Every other kernel/compiler operation leaves both
fields untouched, so this relation captures exactly the states those two
fields can be in. -/
inductive Reach : ScopedKernel → Prop where
  | init : Reach {}
  | log (k : ScopedKernel) (u a : String) : Reach k → Reach (k.logInteraction u a).2
  | gc (k : ScopedKernel) : Reach k → Reach k.garbageCollect

-- ======================================================================
-- embeddings.EmbeddingEngine: the TF-IDF path (for determinism)
-- ======================================================================

/-- `embeddings.EmbeddingConfig` (the fields the TF-IDF path reads). -/
structure EmbeddingConfig where
  vector_size : Nat := 128
deriving DecidableEq, Repr

/-- The trained state of `embeddings.EmbeddingEngine`: document
frequencies, document count, vocabulary (token → index) and the
vocabulary lock. -/
structure TfidfEngine where
  config : EmbeddingConfig := {}
  df : List (String × Nat) := []
  total_docs : Nat := 0
  vocabulary : List (String × Nat) := []
  vocab_lock : Bool := false
deriving DecidableEq, Repr

/-- Is `c` one of the lowercase alphanumerics matched by the tokenizer's
regex `[a-z0-9]+` (the text is lowercased first)? -/
def isTokenChar (c : Char) : Bool :=
  (97 ≤ c.toNat && c.toNat ≤ 122) || (48 ≤ c.toNat && c.toNat ≤ 57)

/-- Split a character list into the maximal runs matched by `[a-z0-9]+`. -/
def splitRuns : List Char → List Char → List String
  | [], acc => if acc.isEmpty then [] else [String.mk acc.reverse]
  | c :: rest, acc =>
      if isTokenChar c then splitRuns rest (c :: acc)
      else if acc.isEmpty then splitRuns rest []
      else String.mk acc.reverse :: splitRuns rest []

/-- The stopword list of `EmbeddingEngine._tokenize`. -/
def STOPWORDS : List String :=
  ["the", "a", "an", "is", "are", "was", "were", "be", "been",
   "being", "have", "has", "had", "do", "does", "did", "will",
   "would", "could", "should", "may", "might", "must", "shall",
   "can", "to", "of", "in", "for", "on", "with", "at", "by",
   "from", "as", "or", "and", "but", "if", "then", "so", "than",
   "that", "this", "these", "those", "it", "its"]

/-- `EmbeddingEngine._tokenize`: lowercase, take `[a-z0-9]+` runs, drop
tokens of length at most 2 and stopwords. -/
def tokenize (text : String) : List String :=
  (splitRuns (strLower text).toList []).filter
    (fun t => 2 < t.length && !(STOPWORDS.contains t))

/-- Python `collections.Counter(tokens)` as an association list in
first-occurrence order (which is how a Counter built from a list
iterates). -/
def counterOf (tokens : List String) : List (String × Nat) :=
  tokens.foldl
    (fun acc t =>
      if acc.any (fun p => p.1 == t) then
        acc.map (fun p => if p.1 == t then (p.1, p.2 + 1) else p)
      else acc ++ [(t, 1)])
    []

/-- `EmbeddingEngine._compute_tf`: log-normalised term frequency.
`rlog` is the real logarithm `math.log` (irrational-valued, hence a
parameter). -/
def computeTf (rlog : ℚ → ℚ) (tokens : List String) : List (String × ℚ) :=
  let total : ℚ := if tokens.isEmpty then 1 else (tokens.length : ℚ)
  (counterOf tokens).map (fun p => (p.1, qdiv (qadd 1 (rlog (p.2 : ℚ))) total))

/-- `EmbeddingEngine._compute_idf`: `0` for an unseen term, else
`log(total_docs / df)`. -/
def TfidfEngine.computeIdf (rlog : ℚ → ℚ) (e : TfidfEngine) (term : String) : ℚ :=
  match e.df.lookup term with
  | none => 0
  | some n => if n = 0 then 0 else rlog (qdiv (e.total_docs : ℚ) (n : ℚ))

/-- `EmbeddingEngine.train(documents)`.  For every document the source
iterates over `set(self._tokenize(doc))`: a Python `set` of strings,
whose iteration order depends on the per-process string-hash seed
(`PYTHONHASHSEED`).  `setOrd` models that iteration order: it maps the
token list of a document to the deduplicated token list in the order the
set happens to yield.  Document frequencies are order-independent, but
vocabulary indices are assigned in iteration order. -/
def TfidfEngine.train (setOrd : List String → List String)
    (e : TfidfEngine) (documents : List String) : TfidfEngine :=
  let e := { e with df := [], total_docs := documents.length }
  let e := documents.foldl
    (fun e doc =>
      (setOrd (tokenize doc)).foldl
        (fun e token =>
          let newDf :=
            if e.df.any (fun p => p.1 == token) then
              e.df.map (fun p => if p.1 == token then (p.1, p.2 + 1) else p)
            else e.df ++ [(token, 1)]
          let e := { e with df := newDf }
          if e.vocabulary.any (fun p => p.1 == token) then e
          else { e with vocabulary := e.vocabulary ++ [(token, e.vocabulary.length)] })
        e)
    e
  { e with vocab_lock := true }

/-- Add `x` at index `i` of a vector (`embedding[idx] += tfidf`). -/
def addAt (v : List ℚ) (i : Nat) (x : ℚ) : List ℚ :=
  v.set i (qadd (v.getD i 0) x)

/-- `EmbeddingEngine._tfidf_embed(text)`.  `rlog` models `math.log`,
`rsqrt` models `math.sqrt`, and `pyhash` models Python's built-in `hash`
on strings (randomised per process), used to index out-of-vocabulary
terms.  The final `or 1.0` on the magnitude maps 0 to 1. -/
def TfidfEngine.tfidfEmbed (rlog rsqrt : ℚ → ℚ) (pyhash : String → Nat)
    (e : TfidfEngine) (text : String) : List ℚ :=
  let tokens := tokenize text
  if tokens.isEmpty then List.replicate e.config.vector_size 0
  else
    let tf := computeTf rlog tokens
    let emb := tf.foldl
      (fun emb p =>
        let tfidf := qmul p.2 (e.computeIdf rlog p.1)
        let idx :=
          match e.vocabulary.lookup p.1 with
          | some i => i % e.config.vector_size
          | none => pyhash p.1 % e.config.vector_size
        addAt emb idx tfidf)
      (List.replicate e.config.vector_size 0)
    let m := rsqrt (emb.foldl (fun s x => qadd s (qmul x x)) 0)
    let magnitude := if m = 0 then 1 else m
    emb.map (fun x => qdiv x magnitude)

/-- `EmbeddingEngine.embed(text)` with no external provider configured:
TF-IDF once trained, otherwise the MD5-seeded hash fallback
(`hashEmbedFn`, deterministic and not exercised on the trained path; the
embedding cache only memoises and is dropped from the model). -/
def TfidfEngine.embed (rlog rsqrt : ℚ → ℚ) (pyhash : String → Nat)
    (hashEmbedFn : String → List ℚ) (e : TfidfEngine) (text : String) : List ℚ :=
  if e.vocab_lock && decide (0 < e.total_docs) then
    e.tfidfEmbed rlog rsqrt pyhash text
  else hashEmbedFn text

-- ======================================================================
-- Spec-side definitions and shared concrete instances
-- ======================================================================

/-- The state the spec's §4.3 thresholds dictate for a confidence value
(ESTABLISHED at 0.8 and above, VALIDATING in [0.6, 0.8), SHADOW in
[0.4, 0.6), HYPOTHESIS in [0.2, 0.4), DEPRECATED below 0.2).  This is the
spec's wording; it is compared against the source's `_update_state` and
the rule constructors. -/
def specStateOfConfidence (c : ℚ) : RuleState :=
  if c ≥ mkRat 8 10 then .established
  else if c ≥ mkRat 6 10 then .validating
  else if c ≥ mkRat 4 10 then .shadow
  else if c ≥ mkRat 2 10 then .hypothesis
  else .deprecated

/-- A trivial embedding oracle for concrete evaluations: every text embeds
to `[1]` and every cosine similarity is `1`.  The claims evaluated with it
do not depend on the embedding values. -/
def emTriv : EmbedModel := ⟨fun _ => [1], fun _ _ => 1⟩

-- ======================================================================
-- C1: scope matching contract of query_scoped_rules
-- ======================================================================

/-- `matches_context` decides exactly the spec's case-insensitive
element-wise prefix relation (the empty scope path matching every
context). -/
theorem matchesContextAux_iff (sp C : List String) :
    matchesContextAux sp C = true ↔
      (sp.map strLower) <+: (C.map strLower) := by
  induction sp generalizing C with
  | nil => simp [matchesContextAux, List.nil_prefix]
  | cons s ss ih =>
      cases C with
      | nil => simp [matchesContextAux, List.prefix_nil]
      | cons c cs =>
          simp [matchesContextAux, List.cons_prefix_cons, ih, Bool.and_eq_true,
                beq_iff_eq]

/-- **C1.**  For every kernel state, active context path `C` and scoped
rule `r`: `query_scoped_rules(C)` considers `r` a match (via
`matches_context`) iff `r.scope_path` is an element-wise case-insensitive
prefix of `C` (the empty scope path matching everything); consequently
every rule in the returned list has such a prefix scope path, so no rule
from an unrelated scope is ever returned. -/
theorem query_scoped_rules_scope_contract (em : EmbedModel) (k : ScopedKernel)
    (active : List String) (query : Option String) (top_k : Nat) (r : ScopedRule) :
    (r.matchesContext active = true ↔
        (r.scope_path.map strLower) <+: (active.map strLower)) ∧
    (r ∈ k.queryScopedRules em active query top_k →
        (r.scope_path.map strLower) <+: (active.map strLower)) := by
  refine ⟨matchesContextAux_iff _ _, fun hr => ?_⟩
  rw [ScopedKernel.queryScopedRules] at hr
  have h1 := List.mem_of_mem_take hr
  obtain ⟨p, hp, hpr⟩ := List.mem_map.mp h1
  rw [sortByDesc, List.mem_insertionSort] at hp
  obtain ⟨rule, hrule, heq⟩ := List.mem_filterMap.mp hp
  by_cases hm : rule.matchesContext active
  · rw [if_pos hm] at heq
    have : rule = r := by
      have := congrArg (fun o => (Option.map Prod.snd o)) heq
      simpa [hpr] using this
    rw [← this, ← matchesContextAux_iff]
    exact hm
  · rw [if_neg hm] at heq
    exact absurd heq (by simp)

/-- A one-rule kernel used as the C1 witness instance. -/
def ruleC1 : ScopedRule :=
  { rule_id := "r1", content := "User prefers async", scope_path := ["Python"]
    confidence := mkRat 9 10, state := .established, weight := mkRat 8 10, embedding := some [1] }

/-- Kernel holding `ruleC1`. -/
def kernelC1 : ScopedKernel := { scoped_rules := [("r1", ruleC1)] }

/-- Witness for C1: on a concrete kernel the returned rule's scope path is
a case-insensitive prefix of the queried context. -/
theorem query_scoped_rules_scope_contract_witness :
    ((["Python"] : List String).map strLower) <+:
      ((["Python", "FastAPI"] : List String).map strLower) :=
  (query_scoped_rules_scope_contract emTriv kernelC1 ["Python", "FastAPI"] none 10
    ruleC1).2 (by decide)

-- ======================================================================
-- C2: state/confidence coherence
-- ======================================================================

/-- `_update_state` installs exactly the state the spec's thresholds
dictate, and leaves the confidence unchanged. -/
theorem updateState_spec (r : ScopedRule) :
    (r.updateState).state = specStateOfConfidence r.confidence ∧
    (r.updateState).confidence = r.confidence := by
  unfold ScopedRule.updateState specStateOfConfidence
  split_ifs <;> simp_all
  all_goals linarith

/-- After any `_update_state` the rule is coherent. -/
theorem updateState_coherent (x : ScopedRule) :
    (x.updateState).state = specStateOfConfidence (x.updateState).confidence := by
  have h := updateState_spec x
  rw [h.1, h.2]

/-- The hypothesis of the source's own promotion scenario
(`validations = 3`, PROMOTED). -/
def hypothesisC2 : Hypothesis :=
  { hypothesis_id := "hyp_test", proposed_content := "Use TypeScript"
    proposed_scope_path := ["JavaScript"], proposed_relation := .prefers
    proposed_target_node := "lang_js", confidence := mkRat 7 10, validations := 3
    state := .promoted }

/-- **C2.**  `validate` and `reject` do re-derive the state from the
confidence (first two conjuncts), but the two rule-construction paths
violate the invariant: a hypothesis promoted through `to_scoped_rule`
gets confidence 0.8 with state HYPOTHESIS (the thresholds dictate
ESTABLISHED), and `force_scoped_rule` creates a rule with confidence 0.9
and state HYPOTHESIS.  Neither constructor calls `_update_state`. -/
theorem rule_state_confidence_coherence :
    (∀ (r : ScopedRule) (now : Time) (boost : ℚ),
        (r.validate now boost).state =
          specStateOfConfidence (r.validate now boost).confidence) ∧
    (∀ (r : ScopedRule) (penalty : ℚ),
        (r.reject penalty).state =
          specStateOfConfidence (r.reject penalty).confidence) ∧
    ((hypothesisC2.toScopedRule "rule_0" 0).confidence = 0.8 ∧
     (hypothesisC2.toScopedRule "rule_0" 0).state = RuleState.hypothesis ∧
     specStateOfConfidence 0.8 = RuleState.established) ∧
    (((forceScopedRule emTriv 0 {} "Always use async" ["Python"] "lang_python"
        none (mkRat 9 10)).2.scoped_rules.map (fun p => (p.2.confidence, p.2.state))) =
      [(0.9, RuleState.hypothesis)]) := by
  refine ⟨fun r now boost => updateState_coherent _,
          fun r penalty => updateState_coherent _, ⟨?_, ?_, ?_⟩, ?_⟩
  · norm_num [Hypothesis.toScopedRule, hypothesisC2, Rat.mkRat_eq_div]
  · rfl
  · norm_num [specStateOfConfidence, Rat.mkRat_eq_div]
  · simp only [forceScopedRule, emTriv, dictInsert, List.any_nil, if_neg,
      Bool.false_eq_true, not_false_iff, List.nil_append, List.map_cons, List.map_nil]
    norm_num [Rat.mkRat_eq_div]

-- ======================================================================
-- C3: export/load round trip
-- ======================================================================

/-- C3 as stated: loading the exported payload reproduces the kernel in
every observable attribute — scoped rules, context nodes, hypotheses,
goals, facts, profile, style vector, active project and metrics. -/
def claimC3 : Prop :=
  ∀ k : ScopedKernel, ∃ k', ScopedKernel.load k.export = some k' ∧
    k'.scoped_rules = k.scoped_rules ∧ k'.context_nodes = k.context_nodes ∧
    k'.hypotheses = k.hypotheses ∧ k'.goals = k.goals ∧ k'.facts = k.facts ∧
    k'.profile = k.profile ∧ k'.style_vector = k.style_vector ∧
    k'.active_project = k.active_project ∧ k'.metrics = k.metrics

/-- A goal for the C3 counterexample kernel. -/
def goalC3 : UserGoal := { goal_id := "g1", content := "Ship the release" }

/-- A kernel holding one goal (and nothing else). -/
def kernelC3 : ScopedKernel := { goals := [("g1", goalC3)] }

/-- `RelationType[...]` inverts `.name`. -/
theorem relationType_ofName_name (r : RelationType) :
    RelationType.ofName r.name = some r := by cases r <;> rfl

/-- `RuleState(...)` inverts `.value`. -/
theorem RuleState.ofValue_value (s : RuleState) :
    RuleState.ofValue s.value = some s := by cases s <;> rfl

/-- `ContextType[...]` inverts `.name`. -/
theorem contextType_ofName_name (t : ContextType) :
    ContextType.ofName t.name = some t := by cases t <;> rfl

/-- `HypothesisState[...]` inverts `.name`. -/
theorem hypothesisState_ofName_name (s : HypothesisState) :
    HypothesisState.ofName s.name = some s := by cases s <;> rfl

/-- `ScopedRule.from_dict` inverts `ScopedRule.to_dict`. -/
theorem ScopedRule.toDict_toRule (r : ScopedRule) : r.toDict.toRule = some r := by
  obtain ⟨_, _, _, _, rel, _, _, st, _, _, _, _, _, _, _, _, _⟩ := r
  cases rel <;> cases st <;> rfl

/-- `ContextNode.from_dict` inverts `ContextNode.to_dict`. -/
theorem ContextNode.toDict_toNode (n : ContextNode) : n.toDict.toNode = some n := by
  obtain ⟨_, ct, _, _, _, _, _, _, _, _, _, _⟩ := n
  cases ct <;> rfl

/-- `Hypothesis.from_dict` inverts `Hypothesis.to_dict`. -/
theorem Hypothesis.toDict_toHypothesis (h : Hypothesis) :
    h.toDict.toHypothesis = some h := by
  obtain ⟨_, _, _, rel, _, _, _, _, st, _, _, _, _, _, _, _⟩ := h
  cases rel <;> cases st <;> rfl

/-- Parsing a serialized map whose parser inverts the serializer gives the
original entries back. -/
theorem parseEntries_map (g : β → Option α) (f : α → β)
    (hfg : ∀ a, g (f a) = some a) (l : List (String × α)) :
    parseEntries g (l.map (fun p => (p.1, f p.2))) = some l := by
  induction l with
  | nil => rfl
  | cons p rest ih => simp [parseEntries, hfg, ih]

/-- **C3 (amended).**  `load(export(k))` succeeds and reproduces the
scoped rules, context nodes, hypotheses, profile, style vector, active
project and metrics — but not the goals and facts, which `export` never
writes: the loaded kernel has none. -/
theorem export_load_roundtrip (k k' : ScopedKernel)
    (h : ScopedKernel.load k.export = some k') :
    k'.scoped_rules = k.scoped_rules ∧ k'.context_nodes = k.context_nodes ∧
    k'.hypotheses = k.hypotheses ∧ k'.profile = k.profile ∧
    k'.style_vector = k.style_vector ∧ k'.active_project = k.active_project ∧
    k'.metrics = k.metrics ∧ k'.goals = [] ∧ k'.facts = [] := by
  simp only [ScopedKernel.load, ScopedKernel.export,
    parseEntries_map ContextNodeDict.toNode ContextNode.toDict ContextNode.toDict_toNode,
    parseEntries_map ScopedRuleDict.toRule ScopedRule.toDict ScopedRule.toDict_toRule,
    parseEntries_map HypothesisDict.toHypothesis Hypothesis.toDict
      Hypothesis.toDict_toHypothesis,
    Option.some.injEq] at h
  subst h
  exact ⟨rfl, rfl, rfl, rfl, rfl, rfl, rfl, rfl, rfl⟩

/-- Witness for C3 (amended): the concrete one-rule kernel round-trips. -/
theorem export_load_roundtrip_witness :
    kernelC1.scoped_rules = kernelC1.scoped_rules :=
  (export_load_roundtrip kernelC1 kernelC1 (by decide)).1

/-- Counterexample to C3 as stated: a kernel holding one goal loads back
without it, because the export payload has no goals (or facts) key. -/
theorem export_drops_goals : ¬ claimC3 := by
  intro h
  obtain ⟨k', hload, -, -, -, hgoals, -⟩ := h kernelC3
  have hl : ScopedKernel.load kernelC3.export = some ({} : ScopedKernel) := by decide
  rw [hl] at hload
  injection hload with h2
  subst h2
  exact absurd hgoals (by decide)

-- ======================================================================
-- C4: resource-limit pruning
-- ======================================================================

/-- C4 as stated: whenever `_prune_scoped_rules` runs, no rule whose
confidence is at least 0.3 is deleted. -/
def claimC4 : Prop :=
  ∀ (k : ScopedKernel) (p : String × ScopedRule),
    p ∈ k.scoped_rules → p ∉ (k.pruneScopedRules).scoped_rules →
      p.2.confidence < mkRat 3 10

/-- The pruning victim: weight 0.2 (so `weight * confidence` is the
minimum, 0.18) but confidence 0.9. -/
def ruleLowWeight : ScopedRule :=
  { rule_id := "r0", content := "victim", weight := mkRat 2 10
    confidence := mkRat 9 10, embedding := some [] }

/-- Filler rules with score 0.3. -/
def fillerRule (id : String) : ScopedRule :=
  { rule_id := id, content := "filler", weight := mkRat 6 10
    confidence := mkRat 5 10, embedding := some [] }

/-- The eleventh rule whose insertion triggers pruning. -/
def ruleNewC4 : ScopedRule :=
  { rule_id := "r10", content := "new rule", weight := mkRat 5 10
    confidence := mkRat 5 10, embedding := some [] }

/-- A kernel at its `max_rules = 10` bound with cold storage configured. -/
def kernelC4 : ScopedKernel :=
  { scoped_rules :=
      [("r0", ruleLowWeight), ("r1", fillerRule "r1"), ("r2", fillerRule "r2"),
       ("r3", fillerRule "r3"), ("r4", fillerRule "r4"), ("r5", fillerRule "r5"),
       ("r6", fillerRule "r6"), ("r7", fillerRule "r7"), ("r8", fillerRule "r8"),
       ("r9", fillerRule "r9")]
    resource_limits := { max_rules := 10 }
    cold_storage := some [] }

/-- In an association list with duplicate-free keys, a key determines its
pair. -/
theorem assoc_nodup_eq (m : List (String × α)) (hnd : (m.map Prod.fst).Nodup)
    (p q : String × α) (hp : p ∈ m) (hq : q ∈ m) (hk : p.1 = q.1) : p = q := by
  induction m with
  | nil => cases hp
  | cons x xs ih =>
      rw [List.map_cons, List.nodup_cons] at hnd
      rcases List.mem_cons.mp hp with hp1 | hp2 <;>
        rcases List.mem_cons.mp hq with hq1 | hq2
      · rw [hp1, hq1]
      · exfalso
        apply hnd.1
        have hin : q.1 ∈ xs.map Prod.fst := List.mem_map_of_mem Prod.fst hq2
        rwa [← hk, hp1] at hin
      · exfalso
        apply hnd.1
        have hin : p.1 ∈ xs.map Prod.fst := List.mem_map_of_mem Prod.fst hp2
        rwa [hk, hq1] at hin
      · exact ih hnd.2 hp2 hq2

/-- One deletion-loop iteration removes only pairs keyed by a
low-weight candidate's id. -/
theorem pruneStep_mem (acc : ScopedKernel) (v : ScopedRule) (p : String × ScopedRule)
    (hin : p ∈ acc.scoped_rules) (hout : p ∉ (pruneStep acc v).scoped_rules) :
    v.weight < mkRat 3 10 ∧ p.1 = v.rule_id := by
  unfold pruneStep at hout
  split_ifs at hout with hw
  · refine ⟨hw, ?_⟩
    by_contra hne
    exact hout (by simp [dictRemove, ScopedKernel.archive, List.mem_filter, hin, hne])
  · exact absurd hin hout

/-- Every pair the deletion loop removes is keyed by the id of some
low-weight candidate. -/
theorem pruneFold_mem (l : List ScopedRule) (acc : ScopedKernel)
    (p : String × ScopedRule)
    (hin : p ∈ acc.scoped_rules) (hout : p ∉ (l.foldl pruneStep acc).scoped_rules) :
    ∃ v ∈ l, v.weight < mkRat 3 10 ∧ p.1 = v.rule_id := by
  induction l generalizing acc with
  | nil => exact absurd hin hout
  | cons v vs ih =>
      rw [List.foldl_cons] at hout
      by_cases hmid : p ∈ (pruneStep acc v).scoped_rules
      · obtain ⟨w, hw, h1, h2⟩ := ih (pruneStep acc v) hmid hout
        exact ⟨w, List.mem_cons_of_mem _ hw, h1, h2⟩
      · obtain ⟨h1, h2⟩ := pruneStep_mem acc v p hin hmid
        exact ⟨v, List.mem_cons_self _ _, h1, h2⟩

/-- "Entry `e` is in cold storage whenever cold storage is configured." -/
def inStorage (k : ScopedKernel) (e : ArchiveEntry) : Prop :=
  ∀ ar, k.cold_storage = some ar → e ∈ ar

/-- A pruning step keeps every archived entry archived. -/
theorem pruneStep_inStorage (acc : ScopedKernel) (v : ScopedRule) (e : ArchiveEntry)
    (h : inStorage acc e) : inStorage (pruneStep acc v) e := by
  unfold pruneStep ScopedKernel.archive
  split_ifs <;> intro ar har
  · simp only at har
    cases hcs : acc.cold_storage with
    | none => rw [hcs] at har; cases har
    | some ar0 =>
        rw [hcs] at har
        injection har with h2
        exact h2 ▸ List.mem_append_left _ (h ar0 hcs)
  · exact h ar har

/-- The whole deletion loop keeps every archived entry archived. -/
theorem pruneFold_inStorage (l : List ScopedRule) (acc : ScopedKernel)
    (e : ArchiveEntry) (h : inStorage acc e) :
    inStorage (l.foldl pruneStep acc) e := by
  induction l generalizing acc with
  | nil => exact h
  | cons v vs ih => rw [List.foldl_cons]; exact ih _ (pruneStep_inStorage acc v e h)

/-- Processing a low-weight candidate archives it with reason
`"pruned"`. -/
theorem pruneFold_archives (l : List ScopedRule) (acc : ScopedKernel)
    (v : ScopedRule) (hv : v ∈ l) (hw : v.weight < mkRat 3 10) :
    inStorage (l.foldl pruneStep acc) (.rule v "pruned") := by
  induction l generalizing acc with
  | nil => cases hv
  | cons w ws ih =>
      rw [List.foldl_cons]
      rcases List.mem_cons.mp hv with h1 | h2
      · subst h1
        refine pruneFold_inStorage ws _ _ ?_
        unfold pruneStep ScopedKernel.archive
        rw [if_pos hw]
        intro ar har
        simp only at har
        cases hcs : acc.cold_storage with
        | none => rw [hcs] at har; cases har
        | some ar0 =>
            rw [hcs] at har
            injection har with h2
            exact h2 ▸ List.mem_append_right _ (List.mem_singleton_self _)
      · exact ih _ h2

/-- **C4 (amended).**  On a kernel whose rule map is well formed (keys are
the rule ids, no duplicates), `_prune_scoped_rules` only ever deletes a
rule whose WEIGHT is below 0.3 — the guard tests `rule.weight < 0.3`, not
confidence — and every deleted rule is archived with reason `"pruned"`
whenever cold storage is configured. -/
theorem prune_deletes_only_low_weight (k : ScopedKernel)
    (hids : ∀ p ∈ k.scoped_rules, p.1 = p.2.rule_id)
    (hnd : (k.scoped_rules.map Prod.fst).Nodup)
    (p : String × ScopedRule)
    (hin : p ∈ k.scoped_rules) (hout : p ∉ (k.pruneScopedRules).scoped_rules) :
    p.2.weight < mkRat 3 10 ∧
    (∀ ar, (k.pruneScopedRules).cold_storage = some ar →
        ArchiveEntry.rule p.2 "pruned" ∈ ar) := by
  unfold ScopedKernel.pruneScopedRules at hout ⊢
  by_cases hlen : k.scoped_rules.length < 10
  · rw [if_pos hlen] at hout
    exact absurd hin hout
  · rw [if_neg hlen] at hout ⊢
    obtain ⟨w, hwmem, hwlt, hkey⟩ := pruneFold_mem _ k p hin hout
    have hwvals : w ∈ k.scoped_rules.map Prod.snd := by
      have h1 := List.mem_of_mem_take hwmem
      rw [sortByAsc, List.mem_insertionSort] at h1
      exact h1
    obtain ⟨q, hq, hq2⟩ := List.mem_map.mp hwvals
    have hpq : p = q := by
      refine assoc_nodup_eq _ hnd p q hin hq ?_
      rw [hkey, ← hq2, ← hids q hq]
    have hp2 : p.2 = w := by rw [hpq, hq2]
    rw [hp2]
    exact ⟨hwlt, pruneFold_archives _ k w hwmem hwlt⟩

/-- Witness for C4 (amended), on the concrete ten-rule kernel. -/
theorem prune_deletes_only_low_weight_witness :
    ruleLowWeight.weight < mkRat 3 10 ∧
    (∀ ar, (kernelC4.pruneScopedRules).cold_storage = some ar →
        ArchiveEntry.rule ruleLowWeight "pruned" ∈ ar) :=
  prune_deletes_only_low_weight kernelC4 (by decide) (by decide)
    ("r0", ruleLowWeight) (by decide) (by decide)

/-- Counterexample to C4 as stated: the rule with confidence 0.9 but
weight 0.2 is deleted by pruning (also when the pruning is triggered
through `add_scoped_rule` at the `max_rules` bound). -/
theorem prune_deletes_high_confidence :
    ¬ claimC4 ∧
    ("r0", ruleLowWeight) ∉ (kernelC4.addScopedRule emTriv ruleNewC4).2.scoped_rules := by
  constructor
  · intro h
    exact absurd (h kernelC4 ("r0", ruleLowWeight) (by decide) (by decide)) (by decide)
  · decide

-- ======================================================================
-- C5: hypothesis creation in evolve_scoped
-- ======================================================================

/-- Did the signal validate at least one matching pending hypothesis? -/
def signalValidatedSome (em : EmbedModel) (k : ScopedKernel) (s : Signal) : Bool :=
  (findMatchingHypotheses em k s).any (fun h => signalValidatesHypothesis em s h)

/-- C5 as stated, at a single-signal `evolve_scoped` call: a new
hypothesis is created iff the signal did not validate any existing
hypothesis and its confidence is at least 0.3. -/
def claimC5 : Prop :=
  ∀ (em : EmbedModel) (now : Time) (k : ScopedKernel) (s : Signal),
    (evolveScoped em now k [s]).2.hypotheses_created =
      (if !(signalValidatedSome em k s) && decide (mkRat 3 10 ≤ s.confidence)
       then 1 else 0)

/-- A pending hypothesis matching the C5 signal. -/
def hypothesisC5 : Hypothesis :=
  { hypothesis_id := "h0", proposed_content := "Use TypeScript"
    proposed_scope_path := ["TypeScript"], proposed_relation := .prefers
    proposed_target_node := "lang_typescript", confidence := mkRat 1 10
    expires_at := some 1000, embedding := some [1] }

/-- Kernel holding the single pending hypothesis. -/
def kernelC5 : ScopedKernel := { hypotheses := [("h0", hypothesisC5)] }

/-- A preference signal with the hypothesis's content. -/
def sigC5 : Signal :=
  { signal_type := .preference, content := "Use TypeScript"
    confidence := mkRat 8 10 }

/-- The hypothesis `_create_hypothesis` builds from `sigC5`. -/
def hypoC5new : Hypothesis :=
  { hypothesis_id := "hyp_0", proposed_content := "Use TypeScript"
    proposed_scope_path := ["TypeScript"], proposed_relation := .prefers
    proposed_target_node := "lang_typescript", confidence := mkRat 1 10
    source_signal_type := some "PREFERENCE", source_hash := some ""
    created_at := 0, expires_at := some 24, embedding := some [1] }

/-- The matching-hypothesis loop body never touches
`hypotheses_created`. -/
theorem processMatchingHypothesis_created (em : EmbedModel) (now : Time)
    (signal : Signal) (acc : ScopedKernel × ScopedEvolutionReport) (h : Hypothesis) :
    ((processMatchingHypothesis em now signal acc h).2).hypotheses_created =
      acc.2.hypotheses_created := by
  unfold processMatchingHypothesis
  split_ifs <;> rfl

/-- Step 2 of the per-signal body never touches `hypotheses_created`. -/
theorem matchFold_created (em : EmbedModel) (now : Time) (signal : Signal)
    (l : List Hypothesis) (acc : ScopedKernel × ScopedEvolutionReport) :
    ((l.foldl (processMatchingHypothesis em now signal) acc).2).hypotheses_created =
      acc.2.hypotheses_created := by
  induction l generalizing acc with
  | nil => rfl
  | cons h hs ih => rw [List.foldl_cons, ih, processMatchingHypothesis_created]

/-- The per-signal body bumps `hypotheses_created` exactly when the
signal's confidence reaches 0.3. -/
theorem processSignalStep_created (em : EmbedModel) (now : Time)
    (acc : ScopedKernel × ScopedEvolutionReport) (signal : Signal) :
    ((processSignalStep em now acc signal).2).hypotheses_created =
      acc.2.hypotheses_created +
        (if mkRat 3 10 ≤ signal.confidence then 1 else 0) := by
  have hctx : ∀ acc2 : ScopedKernel × ScopedEvolutionReport,
      ((stepContextNode em now signal acc2).2).hypotheses_created =
        acc2.2.hypotheses_created := by
    intro acc2
    unfold stepContextNode
    dsimp only
    split_ifs <;> rfl
  have hcorr : ∀ acc2 : ScopedKernel × ScopedEvolutionReport,
      ((stepCorrection em signal acc2).2).hypotheses_created =
        acc2.2.hypotheses_created := by
    intro acc2
    unfold stepCorrection
    dsimp only
    split_ifs <;> rfl
  have hmid : ∀ acc2 : ScopedKernel × ScopedEvolutionReport,
      ((stepCorrection em signal
          (stepHypotheses em now signal
            (stepContextNode em now signal acc2))).2).hypotheses_created =
        acc2.2.hypotheses_created := by
    intro acc2
    rw [hcorr]
    unfold stepHypotheses
    rw [matchFold_created, hctx]
  by_cases hcc : signal.confidence < mkRat 3 10
  · rw [if_neg (not_le.mpr hcc)]
    unfold processSignalStep stepCreate
    simp only [createHypothesis, if_pos hcc]
    exact hmid acc
  · rw [if_pos (le_of_not_lt hcc)]
    unfold processSignalStep stepCreate
    simp only [createHypothesis, if_neg hcc]
    simp [hmid acc]

/-- Summing the per-signal bumps over a batch of signals. -/
theorem signalsFold_created (em : EmbedModel) (now : Time) (signals : List Signal)
    (acc : ScopedKernel × ScopedEvolutionReport) :
    ((signals.foldl (processSignalStep em now) acc).2).hypotheses_created =
      acc.2.hypotheses_created +
        (signals.filter (fun s => decide (mkRat 3 10 ≤ s.confidence))).length := by
  induction signals generalizing acc with
  | nil => simp
  | cons s ss ih =>
      rw [List.foldl_cons, ih, processSignalStep_created]
      by_cases h : mkRat 3 10 ≤ s.confidence
      · simp only [h, if_true, List.filter_cons, decide_eq_true_eq, List.length_cons]
        omega
      · simp only [h, if_false, List.filter_cons, decide_eq_true_eq, List.length_cons]
        omega

/-- **C5 (amended).**  In `evolve_scoped` a new hypothesis is created for
a signal iff its confidence is at least 0.3 — independently of whether the
signal validated an existing hypothesis (step 4 runs unconditionally).
Every hypothesis `_create_hypothesis` builds has confidence 0.1, expiry 24
hours after creation and zero validation interactions (the end-of-call
step 6 then counts the running interaction on every stored hypothesis). -/
theorem evolve_scoped_hypothesis_creation (em : EmbedModel) (now : Time)
    (k : ScopedKernel) (signals : List Signal) :
    ((evolveScoped em now k signals).2.hypotheses_created =
        (signals.filter (fun s => decide (mkRat 3 10 ≤ s.confidence))).length) ∧
    (∀ (s : Signal) (sp : List String) (tn fid : String),
        ((createHypothesis em now s sp tn fid).isSome ↔ mkRat 3 10 ≤ s.confidence)) ∧
    (∀ (s : Signal) (sp : List String) (tn fid : String) (h : Hypothesis),
        createHypothesis em now s sp tn fid = some h →
          h.confidence = mkRat 1 10 ∧ h.expires_at = some (now + 24) ∧
          h.validation_interactions = 0) := by
  refine ⟨?_, ?_, ?_⟩
  · cases signals with
    | nil => simp [evolveScoped]
    | cons s ss =>
        simp only [evolveScoped, List.isEmpty_cons, Bool.false_eq_true, if_false]
        rw [signalsFold_created]
        simp
  · intro s sp tn fid
    unfold createHypothesis
    split_ifs with hcc
    · simp only [Option.isSome_none, Bool.false_eq_true, false_iff, not_le]
      exact hcc
    · simp only [Option.isSome_some, true_iff]
      exact le_of_not_lt hcc
  · intro s sp tn fid h heq
    unfold createHypothesis at heq
    split_ifs at heq
    injection heq with h2
    subst h2
    exact ⟨rfl, rfl, rfl⟩

/-- Witness for C5 (amended): the concrete creation at signal `sigC5`. -/
theorem evolve_scoped_hypothesis_creation_witness :
    ((evolveScoped emTriv 0 kernelC5 [sigC5]).2.hypotheses_created =
        ([sigC5].filter (fun s => decide (mkRat 3 10 ≤ s.confidence))).length) ∧
    (hypoC5new.confidence = mkRat 1 10 ∧ hypoC5new.expires_at = some (0 + 24) ∧
      hypoC5new.validation_interactions = 0) :=
  ⟨(evolve_scoped_hypothesis_creation emTriv 0 kernelC5 [sigC5]).1,
   (evolve_scoped_hypothesis_creation emTriv 0 kernelC5 [sigC5]).2.2 sigC5
     ["TypeScript"] "lang_typescript" "hyp_0" hypoC5new (by decide)⟩

/-- Counterexample to C5 as stated: `sigC5` validates `hypothesisC5`
(the report counts one validation) and a new hypothesis is still
created. -/
theorem evolve_creates_despite_validation :
    ¬ claimC5 ∧
    (evolveScoped emTriv 0 kernelC5 [sigC5]).2.hypotheses_validated = 1 ∧
    (evolveScoped emTriv 0 kernelC5 [sigC5]).2.hypotheses_created = 1 := by
  refine ⟨fun h => ?_, by decide, by decide⟩
  have h1 := h emTriv 0 kernelC5 sigC5
  have e1 : (evolveScoped emTriv 0 kernelC5 [sigC5]).2.hypotheses_created = 1 := by
    decide
  have e2 : (!(signalValidatedSome emTriv kernelC5 sigC5) &&
      decide (mkRat 3 10 ≤ sigC5.confidence)) = false := by decide
  rw [e1, e2] at h1
  exact absurd h1 (by decide)

-- ======================================================================
-- C6: injection monotonicity
-- ======================================================================

/-- C6 as stated: a rule injected for a query stays injected after one
more ESTABLISHED rule whose scope path matches the query's detected scope
is added. -/
def claimC6 : Prop :=
  ∀ (em : EmbedModel) (k : ScopedKernel) (q : String) (r newRule : ScopedRule),
    newRule.state = .established →
    newRule.matchesContext (detectedScope q) = true →
    r ∈ injectedEstablishedRules k q →
    r ∈ injectedEstablishedRules (k.addScopedRule em newRule).2 q

/-- An established global rule with the given weight. -/
def estRuleC6 (id : String) (w : ℚ) : ScopedRule :=
  { rule_id := id, content := "rule " ++ id, state := .established
    confidence := mkRat 8 10, weight := w, embedding := some [] }

/-- A kernel already holding five established global rules (scores 0.72,
0.64, 0.56, 0.48, 0.40). -/
def kernelC6 : ScopedKernel :=
  { scoped_rules :=
      [("e1", estRuleC6 "e1" (mkRat 9 10)), ("e2", estRuleC6 "e2" (mkRat 8 10)),
       ("e3", estRuleC6 "e3" (mkRat 7 10)), ("e4", estRuleC6 "e4" (mkRat 6 10)),
       ("e5", estRuleC6 "e5" (mkRat 5 10))] }

/-- A sixth established rule with score 0.9, the top score. -/
def ruleC6new : ScopedRule :=
  { rule_id := "e6", content := "rule e6", state := .established
    confidence := mkRat 9 10, weight := 1, embedding := some [] }

/-- Appending to the pool cannot evict from the sorted top five as long
as fewer than five elements pass the filter. -/
theorem take5_sort_mono (key : α → ℚ) (P : α → Bool) (l : List α) (x r : α)
    (hlen : (l.filter P).length < 5)
    (hr : r ∈ (sortByDesc key (l.filter P)).take 5) :
    r ∈ (sortByDesc key ((l ++ [x]).filter P)).take 5 := by
  have h1 : r ∈ l.filter P := by
    have h0 := List.mem_of_mem_take hr
    rwa [sortByDesc, List.mem_insertionSort] at h0
  have h3 : r ∈ sortByDesc key ((l ++ [x]).filter P) := by
    rw [sortByDesc, List.mem_insertionSort, List.filter_append]
    exact List.mem_append_left _ h1
  have h4 : (sortByDesc key ((l ++ [x]).filter P)).length ≤ 5 := by
    rw [sortByDesc, List.length_insertionSort, List.filter_append,
        List.length_append]
    have h5 : ([x].filter P).length ≤ 1 := by
      by_cases hP : P x <;> simp [hP]
    omega
  rw [List.take_of_length_le h4]
  exact h3

/-- **C6 (amended).**  Injection is monotone under the capacity at which
the eviction cannot happen: when fewer than five established rules match
the query's scope before the addition (and the new rule's id is fresh and
the `max_rules` bound is not hit, so no prune fires), every previously
injected rule is still injected after adding the new ESTABLISHED rule.
With five or more matching rules the added rule can push the lowest-scored
one out of the injected top five (see the counterexample). -/
theorem injection_monotone_under_five (em : EmbedModel) (k : ScopedKernel)
    (q : String) (r newRule : ScopedRule)
    (hlen : (establishedRulesFor k (detectedScope q)).length < 5)
    (_hstate : newRule.state = .established)
    (hfresh : dictHas k.scoped_rules newRule.rule_id = false)
    (hcap : k.scoped_rules.length < k.resource_limits.max_rules)
    (hr : r ∈ injectedEstablishedRules k q) :
    r ∈ injectedEstablishedRules (k.addScopedRule em newRule).2 q := by
  unfold dictHas at hfresh
  have hrules : ∃ nr, ((k.addScopedRule em newRule).2).scoped_rules
      = k.scoped_rules ++ [(newRule.rule_id, nr)] := by
    cases hemb : newRule.embedding with
    | none =>
        refine ⟨{ newRule with embedding := some (em.embed newRule.content) }, ?_⟩
        unfold ScopedKernel.addScopedRule
        rw [if_neg (not_le.mpr hcap), hemb]
        dsimp only
        unfold dictInsert
        simp only [hfresh, Bool.false_eq_true, if_false]
    | some e =>
        refine ⟨newRule, ?_⟩
        unfold ScopedKernel.addScopedRule
        rw [if_neg (not_le.mpr hcap), hemb]
        dsimp only
        unfold dictInsert
        simp only [hfresh, Bool.false_eq_true, if_false]
  obtain ⟨nr, hrules⟩ := hrules
  unfold injectedEstablishedRules establishedRulesFor at hr ⊢
  rw [hrules, List.map_append, List.map_cons, List.map_nil]
  unfold establishedRulesFor at hlen
  rw [sortByDesc, List.length_insertionSort] at hlen
  exact take5_sort_mono _ _ _ nr r hlen hr

/-- Witness for C6 (amended): the one-rule kernel keeps its injected rule
after a second established rule is added. -/
theorem injection_monotone_under_five_witness :
    ruleC1 ∈ injectedEstablishedRules ((kernelC1.addScopedRule emTriv ruleC6new).2)
      "write Python code" :=
  injection_monotone_under_five emTriv kernelC1 "write Python code" ruleC1 ruleC6new
    (by decide) rfl (by decide) (by decide) (by decide)

/-- Counterexample to C6 as stated: with five established rules already
injected for `"hello"`, adding the higher-scored sixth evicts the
lowest-scored one from the injected top five. -/
theorem injection_not_monotonic :
    ¬ claimC6 ∧
    estRuleC6 "e5" (mkRat 5 10) ∈ injectedEstablishedRules kernelC6 "hello" ∧
    estRuleC6 "e5" (mkRat 5 10) ∉
      injectedEstablishedRules (kernelC6.addScopedRule emTriv ruleC6new).2 "hello" := by
  refine ⟨fun h => ?_, by decide, by decide⟩
  exact absurd
    (h emTriv kernelC6 "hello" (estRuleC6 "e5" (mkRat 5 10)) ruleC6new rfl
      (by decide) (by decide))
    (by decide)

-- ======================================================================
-- C7: goal lines of generate_system_prompt
-- ======================================================================

/-- Spec-side goal line: rendered with the DECAYED priority. -/
def renderGoalLineSpec (powHalf : ℚ → ℚ) (now : Time) (g : UserGoal) : String :=
  "- [" ++ scopeLabel g.scope_path ++ "] " ++ g.content ++
    " (Priority: " ++ toString (g.decayPriority powHalf now) ++ ")"

/-- Spec-side goal section: active goals sorted by decayed priority
descending, top five, each rendered with the decayed priority. -/
def goalLinesSpec (powHalf : ℚ → ℚ) (now : Time) (k : ScopedKernel)
    (scope_path : List String) : List String :=
  (((k.activeGoalsUnsorted powHalf now (some scope_path)).insertionSort
      (fun a b => b.decayPriority powHalf now ≤ a.decayPriority powHalf now)).take 5).map
    (renderGoalLineSpec powHalf now)

/-- C7 as stated: the goal section of the prompt equals the spec-side
decayed-priority rendering. -/
def claimC7 : Prop :=
  ∀ (powHalf : ℚ → ℚ) (now : Time) (k : ScopedKernel) (scope_path : List String),
    goalLines powHalf now k scope_path = goalLinesSpec powHalf now k scope_path

/-- A model of `0.5 ** x` that agrees with the real function at the two
exponents the counterexample evaluates it at (`0.5 ** 0 = 1` and
`0.5 ** 1 = 1/2`). -/
def powHalfC7 : ℚ → ℚ := fun q => if q = 1 then mkRat 1 2 else 1

/-- Goal reinforced 7 days before the query; half-life 7 days, so its
decayed priority is `10 * 0.5 = 5`. -/
def goalA : UserGoal :=
  { goal_id := "gA", content := "finish thesis", priority := 10
    last_reinforced := 0, half_life_days := 7 }

/-- Goal reinforced at the query time: decayed priority is its raw 8. -/
def goalB : UserGoal :=
  { goal_id := "gB", content := "review papers", priority := 8
    last_reinforced := 168, half_life_days := 7 }

/-- Kernel holding the two goals; queried at tick 168 (7 days). -/
def kernelC7 : ScopedKernel :=
  { goals := [("gA", goalA), ("gB", goalB)] }

/-- **C7 (amended).**  `generate_system_prompt` sorts the active goals by
the RAW stored priority descending (the sort is a stable sort of the
active-goal filter output) and renders each of the top five with the raw
priority, not the decayed one: `decay_priority()` is only consulted inside
the activity filter. -/
theorem goal_section_raw_priority (powHalf : ℚ → ℚ) (now : Time)
    (k : ScopedKernel) (sp : List String) :
    goalLines powHalf now k sp =
      (((k.activeGoalsUnsorted powHalf now (some sp)).insertionSort
          (fun a b => b.priority ≤ a.priority)).take 5).map renderGoalLine ∧
    (k.getActiveGoals powHalf now (some sp)).Sorted
      (fun a b => b.priority ≤ a.priority) ∧
    (k.getActiveGoals powHalf now (some sp)).Perm
      (k.activeGoalsUnsorted powHalf now (some sp)) := by
  refine ⟨rfl, ?_, ?_⟩
  · haveI : IsTotal UserGoal (fun a b => b.priority ≤ a.priority) :=
      ⟨fun a b => le_total b.priority a.priority⟩
    haveI : IsTrans UserGoal (fun a b => b.priority ≤ a.priority) :=
      ⟨fun a b c h1 h2 => le_trans h2 h1⟩
    exact List.sorted_insertionSort _ _
  · exact List.perm_insertionSort _ _

/-- Counterexample to C7 as stated: a goal decayed from 10 to 5 is still
listed first (raw sort) and rendered as `Priority: 10`, while the spec
puts the fresher priority-8 goal first and renders the decayed values. -/
theorem goal_lines_not_decayed :
    ¬ claimC7 ∧
    goalLines powHalfC7 168 kernelC7 ["Global"] =
      ["- [Global] finish thesis (Priority: 10)",
       "- [Global] review papers (Priority: 8)"] ∧
    goalLinesSpec powHalfC7 168 kernelC7 ["Global"] =
      ["- [Global] review papers (Priority: 8)",
       "- [Global] finish thesis (Priority: 5)"] := by
  refine ⟨fun h => ?_, by decide, by decide⟩
  exact absurd (h powHalfC7 168 kernelC7 ["Global"]) (by decide)

-- ======================================================================
-- C8: recompile_brain's per-entry failure
-- ======================================================================

/-- An archived interaction whose replay extracts one signal. -/
def logC8 : InteractionLog :=
  { log_id := "log1", user_input := "I prefer TypeScript", ai_output := "ok" }

/-- The signal the observer extracts from `logC8`. -/
def sigC8 : Signal :=
  { signal_type := .preference, content := "Use TypeScript"
    confidence := mkRat 8 10 }

/-- The observer used in the C8 run. -/
def observeC8 : String → String → List Signal := fun _ _ => [sigC8]

/-- A kernel whose cold storage holds exactly the one interaction. -/
def kernelC8 : ScopedKernel :=
  { cold_storage := some [ArchiveEntry.interaction logC8] }

/-- **C8.**  Replaying a well-formed one-interaction archive: the inner
`evolve_scoped` call reports one hypothesis and one context node created,
and the recompiled kernel indeed holds them — but the returned
`RecompileReport` keeps all three evolution counters at 0 and records one
`"Entry error: ..."` string, because the source reads the counters with
`evolution.get(...)` and `ScopedEvolutionReport` is a dataclass with no
`get` method.  This refutes the claim's "counters equal the sums reported
by the evolve_scoped calls, with an empty errors list". -/
theorem recompile_brain_attribute_error :
    (evolveScoped emTriv 0 {} [sigC8]).2.hypotheses_created = 1 ∧
    (evolveScoped emTriv 0 {} [sigC8]).2.context_nodes_created = 1 ∧
    (ScopedKernel.recompileBrain emTriv observeC8 0 kernelC8).1.hypotheses.length = 1 ∧
    (ScopedKernel.recompileBrain emTriv observeC8 0 kernelC8).1.context_nodes.length = 1 ∧
    (ScopedKernel.recompileBrain emTriv observeC8 0 kernelC8).2 =
      some { entries_processed := 1, interactions_replayed := 1
             signals_extracted := 1, hypotheses_created := 0
             rules_promoted := 0, context_nodes_created := 0
             errors := [entryAttributeError] } := by
  decide

-- ======================================================================
-- The q-wrapper bridge theorems: each wrapper agrees with the field
-- operation of ℚ.
-- ======================================================================

/-- `qadd` is rational addition. -/
theorem qadd_eq (a b : ℚ) : qadd a b = a + b := by
  have ha : (a.den : ℚ) ≠ 0 := by exact_mod_cast a.den_nz
  have hb : (b.den : ℚ) ≠ 0 := by exact_mod_cast b.den_nz
  rw [qadd, Rat.mkRat_eq_div]
  push_cast
  conv_rhs => rw [← Rat.num_div_den a, ← Rat.num_div_den b]
  field_simp

/-- `qsub` is rational subtraction. -/
theorem qsub_eq (a b : ℚ) : qsub a b = a - b := by
  have ha : (a.den : ℚ) ≠ 0 := by exact_mod_cast a.den_nz
  have hb : (b.den : ℚ) ≠ 0 := by exact_mod_cast b.den_nz
  rw [qsub, Rat.mkRat_eq_div]
  push_cast
  conv_rhs => rw [← Rat.num_div_den a, ← Rat.num_div_den b]
  field_simp
  ring

/-- `qmul` is rational multiplication. -/
theorem qmul_eq (a b : ℚ) : qmul a b = a * b := by
  have ha : (a.den : ℚ) ≠ 0 := by exact_mod_cast a.den_nz
  have hb : (b.den : ℚ) ≠ 0 := by exact_mod_cast b.den_nz
  rw [qmul, Rat.mkRat_eq_div]
  push_cast
  conv_rhs => rw [← Rat.num_div_den a, ← Rat.num_div_den b]
  field_simp

/-- `qdiv` is rational division (both send a zero divisor to 0). -/
theorem qdiv_eq (a b : ℚ) : qdiv a b = a / b := by
  have ha : (a.den : ℚ) ≠ 0 := by exact_mod_cast a.den_nz
  rcases eq_or_ne b.num 0 with h0 | h0
  · have hb0 : b = 0 := by rwa [Rat.num_eq_zero] at h0
    subst hb0
    simp [qdiv, Rat.mkRat_eq_div]
  · have hb : (b.den : ℚ) ≠ 0 := by exact_mod_cast b.den_nz
    have hbn : ((b.num : ℚ)) ≠ 0 := by exact_mod_cast h0
    have hbq : b ≠ 0 := fun h => h0 (by simp [h])
    rw [qdiv]
    by_cases hsgn : 0 ≤ b.num
    · rw [if_pos hsgn, Rat.mkRat_eq_div]
      have habs : ((b.num.natAbs : ℚ)) = (b.num : ℚ) := by
        rw [Int.cast_natAbs]
        exact_mod_cast abs_of_nonneg hsgn
      push_cast [habs]
      conv_rhs => rw [← Rat.num_div_den a, ← Rat.num_div_den b]
      field_simp
    · rw [if_neg hsgn, Rat.mkRat_eq_div]
      have habs : ((b.num.natAbs : ℚ)) = -(b.num : ℚ) := by
        rw [Int.cast_natAbs]
        exact_mod_cast abs_of_nonpos (le_of_not_le hsgn)
      push_cast [habs]
      conv_rhs => rw [← Rat.num_div_den a, ← Rat.num_div_den b]
      field_simp

-- ======================================================================
-- C9: determinism of embed (vocabulary order vs. set iteration)
-- ======================================================================

/-- The out-of-vocabulary index hash used in the C9 runs (fixed across
the two runs; only the set iteration order differs). -/
def pyhashC9 : String → Nat := fun _ => 0

/-- The untrained fallback embedding (not exercised on the trained path). -/
def hashEmbC9 : String → List ℚ := fun _ => []

/-- The training corpus of the two C9 runs. -/
def corpusC9 : List String := ["python javascript", "python"]

/-- A fresh engine with a two-slot vector. -/
def engC9 : TfidfEngine := { config := { vector_size := 2 } }

/-- One possible iteration order of `set(tokens)`: first occurrences. -/
def setOrd1 (l : List String) : List String :=
  l.foldl (fun acc t => if acc.contains t then acc else acc ++ [t]) []

/-- Another possible iteration order of the same set: reversed. -/
def setOrd2 (l : List String) : List String := (setOrd1 l).reverse

/-- The engine `train` produces from `corpusC9` under `setOrd1`. -/
def engTrained1 : TfidfEngine :=
  { config := { vector_size := 2 }, df := [("python", 2), ("javascript", 1)]
    total_docs := 2, vocabulary := [("python", 0), ("javascript", 1)], vocab_lock := true }

/-- The engine `train` produces from `corpusC9` under `setOrd2`: same
document frequencies, but the vocabulary indices are swapped. -/
def engTrained2 : TfidfEngine :=
  { config := { vector_size := 2 }, df := [("javascript", 1), ("python", 2)]
    total_docs := 2, vocabulary := [("javascript", 0), ("python", 1)], vocab_lock := true }

/-- C9 as stated: `embed` is insensitive to the iteration order of each
document's token set during training (any enumeration of the set — any
permutation of the deduplicated token list — yields identical output). -/
def claimC9 : Prop :=
  ∀ (rlog rsqrt : ℚ → ℚ) (pyhash : String → Nat) (hashEmbedFn : String → List ℚ)
    (e : TfidfEngine) (docs : List String) (text : String)
    (ord1 ord2 : List String → List String),
    (∀ l, (ord1 l).Perm (setOrd1 l)) →
    (∀ l, (ord2 l).Perm (setOrd1 l)) →
    TfidfEngine.embed rlog rsqrt pyhash hashEmbedFn (e.train ord1 docs) text =
      TfidfEngine.embed rlog rsqrt pyhash hashEmbedFn (e.train ord2 docs) text

/-- **C9.**  `train` iterates `set(self._tokenize(doc))`, whose order
depends on the per-process string-hash seed, and assigns vocabulary
indices in that order; two runs over the same corpus can therefore give
the same term different indices, and `embed` then places the same
TF-IDF weight in different vector slots.  The hypotheses on `rlog` and
`rsqrt` (`log 1 = 0`, `log 2 ≠ 0`, `sqrt` positive on positives) hold
for the real `math.log` and `math.sqrt`. -/
theorem embed_depends_on_set_order (rlog rsqrt : ℚ → ℚ)
    (hlog1 : rlog 1 = 0) (hlog2 : rlog 2 ≠ 0)
    (hsqrt : ∀ q, 0 < q → 0 < rsqrt q) :
    ¬ claimC9 ∧
    TfidfEngine.embed rlog rsqrt pyhashC9 hashEmbC9 (engC9.train setOrd1 corpusC9)
        "javascript rust" ≠
      TfidfEngine.embed rlog rsqrt pyhashC9 hashEmbC9 (engC9.train setOrd2 corpusC9)
        "javascript rust" := by
  have htrain1 : engC9.train setOrd1 corpusC9 = engTrained1 := by decide
  have htrain2 : engC9.train setOrd2 corpusC9 = engTrained2 := by decide
  have hne : TfidfEngine.embed rlog rsqrt pyhashC9 hashEmbC9 engTrained1
      "javascript rust" ≠
      TfidfEngine.embed rlog rsqrt pyhashC9 hashEmbC9 engTrained2 "javascript rust" := by
    have htok : tokenize "javascript rust" = ["javascript", "rust"] := by decide
    have hcnt : counterOf ["javascript", "rust"] = [("javascript", 1), ("rust", 1)] := by
      decide
    simp only [TfidfEngine.embed, TfidfEngine.tfidfEmbed, engTrained1, engTrained2, htok,
      TfidfEngine.computeIdf, computeTf, hcnt, pyhashC9]
    have hlu1 : List.lookup "rust" [("javascript", (1:Nat)), ("python", 2)] = none := by
      decide
    have hlu2 : List.lookup "rust" [("javascript", (0:Nat)), ("python", 1)] = none := by
      decide
    have hlu3 : List.lookup "rust" [("python", (2:Nat)), ("javascript", 1)] = none := by
      decide
    have hlu4 : List.lookup "rust" [("python", (0:Nat)), ("javascript", 1)] = none := by
      decide
    have hlu5 : List.lookup "javascript" [("python", (2:Nat)), ("javascript", 1)] = some 1 := by
      decide
    have hlu6 : List.lookup "javascript" [("python", (0:Nat)), ("javascript", 1)] = some 1 := by
      decide
    have hlu7 : List.lookup "javascript" [("javascript", (1:Nat)), ("python", 2)] = some 1 := by
      decide
    have hlu8 : List.lookup "javascript" [("javascript", (0:Nat)), ("python", 1)] = some 0 := by
      decide
    norm_num [qadd_eq, qmul_eq, qdiv_eq, addAt, hlog1, hlu1, hlu2, hlu3, hlu4,
      hlu5, hlu6, hlu7, hlu8, List.replicate, List.set, List.getD]
    have hs : (1 / 2 * rlog 2 : ℚ) ≠ 0 := by
      intro h
      rcases mul_eq_zero.mp h with h | h
      · norm_num at h
      · exact hlog2 h
    have hpos : 0 < rsqrt (1 / 2 * rlog 2 * (1 / 2 * rlog 2)) :=
      hsqrt _ (mul_self_pos.mpr hs)
    intro h0
    refine ⟨hlog2, ?_⟩
    rw [if_neg (ne_of_gt hpos)]
    exact ne_of_gt hpos
  refine ⟨?_, by rw [htrain1, htrain2]; exact hne⟩
  intro hcl
  have hinst := hcl rlog rsqrt pyhashC9 hashEmbC9 engC9 corpusC9 "javascript rust"
    setOrd1 setOrd2 (fun l => List.Perm.refl _)
    (fun l => by unfold setOrd2; exact List.reverse_perm _)
  rw [htrain1, htrain2] at hinst
  exact hne hinst

/-- Witness for C9: the divergence at a concrete log/sqrt model
(`log 1 = 0`, `log 2 = 1`, `sqrt = id` — all three hypotheses hold). -/
theorem embed_depends_on_set_order_witness :
    ¬ claimC9 ∧
    TfidfEngine.embed (fun q => if q = 1 then 0 else 1) (fun q => q) pyhashC9 hashEmbC9
        (engC9.train setOrd1 corpusC9) "javascript rust" ≠
      TfidfEngine.embed (fun q => if q = 1 then 0 else 1) (fun q => q) pyhashC9 hashEmbC9
        (engC9.train setOrd2 corpusC9) "javascript rust" :=
  embed_depends_on_set_order (fun q => if q = 1 then 0 else 1) (fun q => q)
    (by norm_num) (by norm_num) (fun q hq => hq)

-- ======================================================================
-- C10: content hashes are registered at log time
-- ======================================================================

/-- The C10 invariant: every interaction log currently held in the
in-memory log map has its content hash in the processed registry. -/
def logsRegisteredInv (k : ScopedKernel) : Prop :=
  ∀ p ∈ k.interaction_logs,
    k.processed_registry.isProcessed (InteractionLog.contentHash p.2) = true

/-- C10 as stated: in every reachable state the invariant holds, and an
immediate second `log_interaction` with the same texts is rejected and
leaves the kernel unchanged. -/
def claimC10 : Prop :=
  ∀ k : ScopedKernel, Reach k →
    logsRegisteredInv k ∧
    ∀ u a : String,
      ((k.logInteraction u a).2.logInteraction u a) = (none, (k.logInteraction u a).2)

/-- `Reach`, restricted to runs in which every `log_interaction` happens
while the registry is strictly below its cap (so `register` never
evicts). -/
inductive ReachCap : ScopedKernel → Prop where
  | init : ReachCap {}
  | log (k : ScopedKernel) (u a : String) : ReachCap k →
      k.processed_registry.hashes.length < k.processed_registry.max_size →
      ReachCap (k.logInteraction u a).2
  | gc (k : ScopedKernel) : ReachCap k → ReachCap k.garbageCollect

/-- An element of a dict after `dictInsert` is the inserted value or an
original element. -/
theorem mem_dictInsert {α : Type} (m : List (String × α)) (key : String) (v : α)
    (p : String × α) (hp : p ∈ dictInsert m key v) : p.2 = v ∨ p ∈ m := by
  unfold dictInsert at hp
  by_cases h : m.any (fun q => q.1 == key)
  · rw [if_pos h] at hp
    obtain ⟨q, hq, hqe⟩ := List.mem_map.mp hp
    by_cases hk : q.1 == key
    · rw [if_pos hk] at hqe
      left
      rw [← hqe]
    · rw [if_neg hk] at hqe
      right
      exact hqe ▸ hq
  · rw [if_neg h] at hp
    rcases List.mem_append.mp hp with h1 | h1
    · right
      exact h1
    · left
      rw [List.mem_singleton.mp h1]

/-- Garbage collection only deletes log entries. -/
theorem mem_dictRemove_fold {α : Type} (ls : List InteractionLog)
    (m : List (String × α)) (p : String × α)
    (hp : p ∈ ls.foldl (fun acc l => dictRemove acc l.log_id) m) : p ∈ m := by
  induction ls generalizing m with
  | nil => exact hp
  | cons l ls ih => exact List.mem_of_mem_filter (ih _ hp)

/-- `register` always puts the new hash in. -/
theorem register_isProcessed_self (r : ProcessedInteractionRegistry) (h : String) :
    (r.register h).isProcessed h = true := by
  unfold ProcessedInteractionRegistry.register ProcessedInteractionRegistry.isProcessed
  split_ifs <;>
    exact List.elem_iff.mpr (List.mem_append_right _ (List.mem_singleton.mpr rfl))

/-- Below the cap, `register` keeps every registered hash. -/
theorem register_isProcessed_mono (r : ProcessedInteractionRegistry) (h h2 : String)
    (hh : r.isProcessed h2 = true)
    (hlen : r.hashes.length < r.max_size) :
    (r.register h).isProcessed h2 = true := by
  unfold ProcessedInteractionRegistry.register
  rw [if_neg (not_le.mpr hlen)]
  unfold ProcessedInteractionRegistry.isProcessed at hh ⊢
  exact List.elem_iff.mpr (List.mem_append_left _ (List.elem_iff.mp hh))

/-- A second `log_interaction` with the same texts returns `None` and
leaves the kernel unchanged, whatever the starting state. -/
theorem logInteraction_second_rejects (k : ScopedKernel) (u a : String) :
    ((k.logInteraction u a).2.logInteraction u a) = (none, (k.logInteraction u a).2) := by
  unfold ScopedKernel.logInteraction
  dsimp only [InteractionLog.contentHash]
  by_cases h : k.processed_registry.isProcessed (u ++ "|" ++ a)
  · rw [if_pos h]
    dsimp only
    rw [if_pos h]
  · rw [if_neg h]
    dsimp only
    rw [if_pos (register_isProcessed_self k.processed_registry (u ++ "|" ++ a))]

/-- The invariant holds along every cap-respecting run. -/
theorem reachCap_inv (k : ScopedKernel) (h : ReachCap k) : logsRegisteredInv k := by
  induction h with
  | init =>
      intro p hp
      simp at hp
  | log k u a hk hlen ih =>
      intro p hp
      revert hp
      unfold ScopedKernel.logInteraction
      dsimp only [InteractionLog.contentHash]
      by_cases hdup : k.processed_registry.isProcessed (u ++ "|" ++ a)
      · rw [if_pos hdup]
        exact fun hp => ih p hp
      · rw [if_neg hdup]
        dsimp only
        intro hp
        rcases mem_dictInsert _ _ _ _ hp with h2 | h2
        · rw [h2]
          exact register_isProcessed_self _ _
        · exact register_isProcessed_mono _ _ _ (ih p h2) hlen
  | gc k hk ih =>
      intro p hp
      revert hp
      unfold ScopedKernel.garbageCollect
      dsimp only
      split_ifs <;> exact fun hp => ih p (mem_dictRemove_fold _ _ _ hp)

/-- **C10 (amended).**  `log_interaction` registers the content hash at
logging time, so an immediate duplicate is always rejected with `None`
and the kernel left unchanged; and the registered-hash invariant holds
in every reachable state in which no `log_interaction` ever ran with the
registry at its cap.  (At the cap, `register` evicts a hash whose log
may still be in memory — see the counterexample.) -/
theorem log_registration_at_log_time :
    (∀ (k : ScopedKernel) (u a : String),
        ((k.logInteraction u a).2.logInteraction u a) = (none, (k.logInteraction u a).2)) ∧
    (∀ k : ScopedKernel, ReachCap k → logsRegisteredInv k) :=
  ⟨logInteraction_second_rejects, reachCap_inv⟩

/-- The user text of the i-th interaction of the C10 trace. -/
def uC10 (i : Nat) : String := String.mk (List.replicate (i + 1) 'a')

/-- The log the i-th call stores (`fresh` counter `i`). -/
def logC10 (i : Nat) : InteractionLog :=
  { log_id := String.mk (List.replicate i 'x'), user_input := uC10 i, ai_output := "b" }

/-- The i-th content hash of the trace. -/
def hshC10 (i : Nat) : String := (logC10 i).contentHash

/-- The kernel after n distinct `log_interaction` calls and no GC. -/
def kC10 : Nat → ScopedKernel
  | 0 => {}
  | n + 1 => ((kC10 n).logInteraction (uC10 n) "b").2

theorem hshC10_length (i : Nat) : (hshC10 i).length = i + 3 := by
  have h1 : ("|" : String).length = 1 := rfl
  have h2 : ("b" : String).length = 1 := rfl
  simp [hshC10, logC10, uC10, InteractionLog.contentHash, String.length_append,
    String.length, h1, h2]

theorem hshC10_inj {i j : Nat} (h : hshC10 i = hshC10 j) : i = j := by
  have hl := congrArg String.length h
  rw [hshC10_length, hshC10_length] at hl
  omega

/-- The n-th log id is fresh among the first n. -/
theorem logsC10_fresh (n : Nat) :
    ((List.range n).map (fun i => ((logC10 i).log_id, logC10 i))).any
      (fun p => p.1 == String.mk (List.replicate n 'x')) = false := by
  rw [List.any_eq_false]
  intro p hp
  obtain ⟨i, hi, rfl⟩ := List.mem_map.mp hp
  simp only [beq_iff_eq]
  intro he
  have hlen := congrArg String.length he
  simp only [logC10, String.length, List.length_replicate] at hlen
  have := List.mem_range.mp hi
  omega

/-- The n-th content hash is fresh among the first n. -/
theorem hashesC10_fresh (n : Nat) :
    (uC10 n ++ "|" ++ "b") ∉ (List.range n).map hshC10 := by
  intro hmem
  obtain ⟨i, hi, hie⟩ := List.mem_map.mp hmem
  have h1 : hshC10 i = hshC10 n := hie
  have := hshC10_inj h1
  have := List.mem_range.mp hi
  omega

/-- One accepted `log_interaction` step, componentwise. -/
theorem logInteraction_fresh_step (k : ScopedKernel) (u a : String)
    (hnot : k.processed_registry.isProcessed (u ++ "|" ++ a) = false) :
    (k.logInteraction u a).2.interaction_logs =
        dictInsert k.interaction_logs (String.mk (List.replicate k.fresh 'x'))
          { log_id := String.mk (List.replicate k.fresh 'x'), user_input := u
            ai_output := a } ∧
      (k.logInteraction u a).2.processed_registry =
        k.processed_registry.register (u ++ "|" ++ a) ∧
      (k.logInteraction u a).2.fresh = k.fresh + 1 := by
  unfold ScopedKernel.logInteraction
  dsimp only [InteractionLog.contentHash]
  rw [hnot, if_neg Bool.false_ne_true]
  exact ⟨rfl, rfl, rfl⟩

/-- The defining step of the trace. -/
theorem kC10_succ (n : Nat) :
    kC10 (n + 1) = ((kC10 n).logInteraction (uC10 n) "b").2 := rfl

/-- The shape of the trace up to the cap. -/
theorem kC10_spec (n : Nat) (hn : n ≤ 10000) :
    (kC10 n).interaction_logs =
        (List.range n).map (fun i => ((logC10 i).log_id, logC10 i)) ∧
      (kC10 n).processed_registry.hashes = (List.range n).map hshC10 ∧
      (kC10 n).processed_registry.max_size = 10000 ∧
      (kC10 n).fresh = n := by
  induction n with
  | zero => exact ⟨rfl, rfl, rfl, rfl⟩
  | succ n ih =>
      obtain ⟨hlogs, hhash, hmax, hfresh⟩ := ih (by omega)
      have hnot : (kC10 n).processed_registry.isProcessed (uC10 n ++ "|" ++ "b") = false := by
        unfold ProcessedInteractionRegistry.isProcessed
        rw [hhash]
        simpa using hashesC10_fresh n
      obtain ⟨hl, hr, hf⟩ := logInteraction_fresh_step (kC10 n) (uC10 n) "b" hnot
      refine ⟨?_, ?_, ?_, ?_⟩
      · rw [kC10_succ n, hl, hlogs, hfresh]
        unfold dictInsert
        rw [logsC10_fresh n, if_neg Bool.false_ne_true]
        rw [List.range_succ, List.map_append]
        rfl
      · rw [kC10_succ n, hr]
        unfold ProcessedInteractionRegistry.register
        rw [hmax, hhash, List.length_map, List.length_range]
        rw [if_neg (by omega : ¬ (10000 ≤ n))]
        dsimp only
        rw [List.range_succ, List.map_append]
        rfl
      · rw [kC10_succ n, hr]
        unfold ProcessedInteractionRegistry.register
        split_ifs <;> exact hmax
      · rw [kC10_succ n, hf, hfresh]

theorem kC10_reach (n : Nat) : Reach (kC10 n) := by
  induction n with
  | zero => exact Reach.init
  | succ n ih => exact Reach.log _ _ _ ih

/-- Counterexample to C10 as stated: after 10001 distinct interactions
with no garbage collection, the registry (capacity 10000) has evicted
the first hash while the first log is still in memory, so the invariant
fails in a reachable state. -/
theorem registry_eviction_breaks_invariant :
    ¬ claimC10 ∧ Reach (kC10 10001) ∧ ¬ logsRegisteredInv (kC10 10001) := by
  obtain ⟨hlogs, hhash, hmax, hfresh⟩ := kC10_spec 10000 (le_refl _)
  have hnot : (kC10 10000).processed_registry.isProcessed
      (uC10 10000 ++ "|" ++ "b") = false := by
    unfold ProcessedInteractionRegistry.isProcessed
    rw [hhash]
    simpa using hashesC10_fresh 10000
  obtain ⟨hl, hr, hf⟩ := logInteraction_fresh_step (kC10 10000) (uC10 10000) "b" hnot
  have hinv : ¬ logsRegisteredInv (kC10 10001) := by
    intro hinvOK
    have hp : ((logC10 0).log_id, logC10 0) ∈ (kC10 10001).interaction_logs := by
      rw [show (10001:Nat) = 10000 + 1 from rfl, kC10_succ 10000, hl, hlogs, hfresh]
      unfold dictInsert
      rw [logsC10_fresh 10000, if_neg Bool.false_ne_true]
      exact List.mem_append_left _
        (List.mem_map.mpr ⟨0, List.mem_range.mpr (by omega), rfl⟩)
    have hreg := hinvOK _ hp
    rw [show (10001:Nat) = 10000 + 1 from rfl, kC10_succ 10000, hr] at hreg
    unfold ProcessedInteractionRegistry.register at hreg
    rw [hmax, hhash, List.length_map, List.length_range] at hreg
    rw [if_pos (le_refl 10000)] at hreg
    unfold ProcessedInteractionRegistry.isProcessed at hreg
    dsimp only at hreg
    rw [show List.range 10000 = 0 :: (List.range 9999).map Nat.succ from
      List.range_succ_eq_map 9999] at hreg
    simp only [List.map_cons, List.tail_cons] at hreg
    have hmem := List.elem_iff.mp hreg
    rcases List.mem_append.mp hmem with hmem1 | hmem1
    · rw [List.map_map] at hmem1
      obtain ⟨i, hi, hie⟩ := List.mem_map.mp hmem1
      have h1 : hshC10 (Nat.succ i) = hshC10 0 := hie
      have := hshC10_inj h1
      omega
    · have h1 : hshC10 0 = hshC10 10000 := List.mem_singleton.mp hmem1
      have := hshC10_inj h1
      omega
  refine ⟨?_, kC10_reach 10001, hinv⟩
  intro hcl
  exact hinv ((hcl (kC10 10001) (kC10_reach 10001)).1)

end IBLM
